import Mathlib

/-!
Verification development for the Reddit chat-bot repository.

The embedding below translates `telegram_bot.py` (the conversation state
machine `handle_message` / `button_callback`, the result formatter
`_format_json_as_text` and the message chunker `_send_split_messages`)
into executable Lean definitions.  Python strings are modelled as Lean
`String` / `List Char` (both are sequences of unicode scalar values, as
in CPython), Python ints as `Int`, JSON values as an inductive type, and
code that can raise as `Except PyExc`, carrying the exception class name
and its `str()` text.  The two stdlib collaborators `json.loads` and the network
fetchers are passed in as parameters; `telegram.helpers.escape_markdown`
is embedded from its known definition.

Note: the source file of the repository is stored with a double-encoded
(mojibake) rendering of its emoji: for instance the "no results" literal
is the two characters U+00E2 U+0152 followed by " No results found.".
The embedding reproduces those exact code points.
-/

namespace RedditBot

/-- A single-quote character, kept out of string literals. -/
def squote : String := (Char.ofNat 39).toString

/-- Characters Python `str.strip()` / `int()` remove at both ends
(ASCII whitespace; unicode whitespace is not modelled). -/
def isPySpace (c : Char) : Bool :=
  c == ' ' || c == '\t' || c == '\n' || c == '\x0d' ||
  c == Char.ofNat 11 || c == Char.ofNat 12

/-- Python `str.strip()` on the character list. -/
def pyStripL (l : List Char) : List Char :=
  ((l.dropWhile isPySpace).reverse.dropWhile isPySpace).reverse

/-- Python `str.strip()`. -/
def pyStrip (s : String) : String := String.mk (pyStripL s.toList)

/-- ASCII decimal digit test. -/
def isDigitC (c : Char) : Bool := '0' ≤ c && c ≤ '9'

/-- Numeric value of a digit list (underscores already removed). -/
def digitsVal (l : List Char) : Nat :=
  l.foldl (fun a c => a * 10 + (c.toNat - 48)) 0

/-- No two adjacent underscores. -/
def noDoubleUnd : List Char → Bool
  | [] => true
  | [_] => true
  | a :: b :: rest => !(a == '_' && b == '_') && noDoubleUnd (b :: rest)

/-- A valid digit group for Python `int()`: nonempty, made of ASCII digits
with single underscores strictly between digits. -/
def udigitsOk (l : List Char) : Bool :=
  match l with
  | [] => false
  | c :: rest =>
    isDigitC c && isDigitC ((c :: rest).getLast (by simp)) &&
    (c :: rest).all (fun d => isDigitC d || d == '_') && noDoubleUnd (c :: rest)

/-- Python `int(s)` for base 10: strips whitespace, accepts one optional
sign, digits with underscore separators.  Returns `none` where Python
raises `ValueError`.  (Non-ASCII digits are not modelled.) -/
def pyInt (s : String) : Option Int :=
  let t := pyStripL s.toList
  match t with
  | '+' :: rest => if udigitsOk rest then some (digitsVal (rest.filter (· != '_'))) else none
  | '-' :: rest => if udigitsOk rest then some (-(digitsVal (rest.filter (· != '_')) : Int)) else none
  | rest => if udigitsOk rest then some (digitsVal (rest.filter (· != '_'))) else none

/-- The characters `telegram.helpers.escape_markdown` escapes for
`version=2`: the raw string `\_*[]()~`>#+-=|{}.!`. -/
def escapeCharsV2 : List Char := "\\_*[]()~`>#+-=|\x7b\x7d.!".toList

/-- Membership in the MarkdownV2 escape set. -/
def isSpecialV2 (c : Char) : Bool := escapeCharsV2.contains c

/-- Character-list form of `escape_markdown(text, version=2)`: each escape
character is prefixed with a backslash. -/
def escML : List Char → List Char
  | [] => []
  | c :: rest => (if isSpecialV2 c then ['\\', c] else [c]) ++ escML rest

/-- `telegram.helpers.escape_markdown(text, version=2)`. -/
def escapeMarkdownV2 (s : String) : String := String.mk (escML s.toList)

/-- A character list is safely escaped for MarkdownV2: every escape-set
character is consumed by a preceding backslash. -/
def escSeqOk : List Char → Bool
  | [] => true
  | c :: rest =>
    if c == '\\' then
      match rest with
      | [] => false
      | _ :: r2 => escSeqOk r2
    else !isSpecialV2 c && escSeqOk rest

/-- Join a list of strings with a separator (Python `sep.join(parts)`). -/
def joinStr (sep : String) : List String → String
  | [] => ""
  | [x] => x
  | x :: rest => x ++ sep ++ joinStr sep rest

/-- Python slice `s[:n]` for a nonnegative literal bound, on strings. -/
def pyTake (n : Nat) (s : String) : String := String.mk (s.toList.take n)

/-- Substring test used only in theorem statements. -/
def strHasSub (needle hay : String) : Bool :=
  let n := needle.toList
  let rec go : List Char → Bool
    | [] => n.isEmpty
    | c :: rest => n.isPrefixOf (c :: rest) || go rest
  go hay.toList

/-! ### JSON values and Python stdlib behaviour -/

/-- JSON values as produced by `json.loads`.  Numbers are restricted to
integers (the repository only ever formats integer counts; floats are out
of the embedding). -/
inductive Json where
  | null
  | bool (b : Bool)
  | num (n : Int)
  | str (s : String)
  | arr (xs : List Json)
  | obj (fields : List (String × Json))

/-- Python `dict.get(k)` on a parsed JSON object (first binding wins;
parsed JSON objects have unique keys). -/
def jget (fields : List (String × Json)) (k : String) : Option Json :=
  match fields with
  | [] => none
  | (k', v) :: rest => if k' == k then some v else jget rest k

/-- Python truthiness of a `dict.get` result. -/
def truthy : Option Json → Bool
  | none => false
  | some .null => false
  | some (.bool b) => b
  | some (.num n) => n != 0
  | some (.str s) => !s.isEmpty
  | some (.arr xs) => !xs.isEmpty
  | some (.obj fs) => !fs.isEmpty

/-- Python type name of a JSON value, as it appears in exception text. -/
def pyTypeName : Json → String
  | .null => "NoneType"
  | .bool _ => "bool"
  | .num _ => "int"
  | .str _ => "str"
  | .arr _ => "list"
  | .obj _ => "dict"

/-- Python `repr` of a plain string: single-quoted, double-quoted when the
text holds a single quote but no double quote.  (Escapes of backslashes
and control characters inside the text are not modelled.) -/
def pyReprStr (s : String) : String :=
  if s.toList.contains (Char.ofNat 39) && !s.toList.contains '"' then
    "\"" ++ s ++ "\""
  else squote ++ s ++ squote

mutual

/-- Python `repr` of a JSON-shaped value (used by `str()` on containers). -/
def pyRepr : Json → String
  | .null => "None"
  | .bool b => if b then "True" else "False"
  | .num n => toString n
  | .str s => pyReprStr s
  | .arr xs => "[" ++ joinStr (", ") (pyReprList xs) ++ "]"
  | .obj fs => "\x7b" ++ joinStr (", ") (pyReprFields fs) ++ "\x7d"

/-- `repr` of the elements of a list. -/
def pyReprList : List Json → List String
  | [] => []
  | x :: rest => pyRepr x :: pyReprList rest

/-- `repr` of the key/value pairs of a dict. -/
def pyReprFields : List (String × Json) → List String
  | [] => []
  | (k, v) :: rest => (pyReprStr k ++ ": " ++ pyRepr v) :: pyReprFields rest

end

/-- Python `str()` of a JSON-shaped value, as interpolated by f-strings. -/
def pyStr : Json → String
  | .null => "None"
  | .bool b => if b then "True" else "False"
  | .num n => toString n
  | .str s => s
  | .arr xs => pyRepr (.arr xs)
  | .obj fs => pyRepr (.obj fs)

/-- Four lowercase hex digits, as Python prints `\uXXXX` escapes. -/
def hex4 (n : Nat) : String :=
  let d := fun (k : Nat) =>
    if k < 10 then Char.ofNat (48 + k) else Char.ofNat (87 + k)
  String.mk [d (n / 4096 % 16), d (n / 256 % 16), d (n / 16 % 16), d (n % 16)]

/-- JSON string escaping as done by `json.dumps` with `ensure_ascii=True`:
standard short escapes, `\uXXXX` for other control or non-ASCII
characters, surrogate pairs beyond the BMP. -/
def jsonEscChar (c : Char) : String :=
  if c == '"' then "\\\""
  else if c == '\\' then "\\\\"
  else if c == '\n' then "\\n"
  else if c == '\x0d' then "\\r"
  else if c == '\t' then "\\t"
  else if c == Char.ofNat 8 then "\\b"
  else if c == Char.ofNat 12 then "\\f"
  else if c.toNat < 32 || c.toNat ≥ 127 then
    if c.toNat < 65536 then "\\u" ++ hex4 c.toNat
    else
      let v := c.toNat - 65536
      "\\u" ++ hex4 (55296 + v / 1024) ++ "\\u" ++ hex4 (56320 + v % 1024)
  else c.toString

/-- Quoted JSON string literal for `json.dumps`. -/
def jsonQuote (s : String) : String :=
  "\"" ++ joinStr "" (s.toList.map jsonEscChar) ++ "\""

/-- `indent`-many spaces, two per level as in `json.dumps(..., indent=2)`. -/
def dumpPad (depth : Nat) : String := String.mk (List.replicate (2 * depth) ' ')

mutual

/-- `json.dumps(value, indent=2)` at a nesting depth. -/
def pyDumpsAt (depth : Nat) : Json → String
  | .null => "null"
  | .bool b => if b then "true" else "false"
  | .num n => toString n
  | .str s => jsonQuote s
  | .arr [] => "[]"
  | .arr (x :: rest) =>
    "[\n" ++ joinStr (",\n") (pyDumpsItems (depth + 1) (x :: rest)) ++ "\n" ++
    dumpPad depth ++ "]"
  | .obj [] => "\x7b\x7d"
  | .obj (f :: rest) =>
    "\x7b\n" ++ joinStr (",\n") (pyDumpsFields (depth + 1) (f :: rest)) ++ "\n" ++
    dumpPad depth ++ "\x7d"

/-- Indented array items. -/
def pyDumpsItems (depth : Nat) : List Json → List String
  | [] => []
  | x :: rest => (dumpPad depth ++ pyDumpsAt depth x) :: pyDumpsItems depth rest

/-- Indented object entries. -/
def pyDumpsFields (depth : Nat) : List (String × Json) → List String
  | [] => []
  | (k, v) :: rest =>
    (dumpPad depth ++ jsonQuote k ++ ": " ++ pyDumpsAt depth v) ::
    pyDumpsFields depth rest

end

/-- `json.dumps(data, indent=2)`. -/
def pyDumps (data : Json) : String := pyDumpsAt 0 data

/-! ### List batching and joining -/

/-- Consecutive batches of at most `n` elements, as built by
`[xs[i:i+n] for i in range(0, len(xs), n)]`.  The source always calls
this with the constant 20 (and 3 for digit grouping). -/
def chunksOfGo (n : Nat) : Nat → List α → List (List α)
  | _, [] => []
  | 0, _ :: _ => []
  | fuel + 1, x :: rest => (x :: rest).take n :: chunksOfGo n fuel (rest.drop (n - 1))

/-- Entry point: the fuel `l.length` suffices because every round consumes
at least one element. -/
def chunksOf (n : Nat) (l : List α) : List (List α) :=
  if n = 0 then [] else chunksOfGo n l.length l

/-- Join a list of lists with a separator list (`sep.flatten` in Python). -/
def joinSep (sep : List α) : List (List α) → List α
  | [] => []
  | [b] => b
  | b :: rest => b ++ sep ++ joinSep sep rest

/-- Python `f"\x7bn:,\x7d"` for an int: decimal digits in groups of three
separated by commas, with a leading minus for negatives. -/
def pyCommaFmt (n : Int) : String :=
  let digits := (toString n.natAbs).toList
  let grouped := (joinSep [','] (chunksOf 3 digits.reverse)).reverse
  (if n < 0 then "-" else "") ++ String.mk grouped

/-! ### The result formatter `_format_json_as_text` -/

/-- The double-encoded emoji prefixes exactly as they stand in the source
file (see the header note): the bytes of each emoji were re-decoded as
cp1252 text, and bytes without a cp1252 mapping were dropped. -/
def mojiUser : String := String.mk [Char.ofNat 240, Char.ofNat 376, Char.ofNat 8216, Char.ofNat 164]

/-- Mojibake of the mobile-phone emoji used before `r/`. -/
def mojiPhone : String := String.mk [Char.ofNat 240, Char.ofNat 376, Char.ofNat 8220, Char.ofNat 177]

/-- Mojibake of the magnifying-glass emoji used before the keywords. -/
def mojiSearch : String := String.mk [Char.ofNat 240, Char.ofNat 376, Char.ofNat 8221]

/-- Mojibake of the bar-chart emoji used before the upvote count. -/
def mojiChart : String := String.mk [Char.ofNat 240, Char.ofNat 376, Char.ofNat 8220, Char.ofNat 352]

/-- Mojibake of the link emoji used before the permalink. -/
def mojiLink : String := String.mk [Char.ofNat 240, Char.ofNat 376, Char.ofNat 8221, Char.ofNat 8212]

/-- Mojibake of the cross-mark emoji in the no-results literal. -/
def mojiCross : String := String.mk [Char.ofNat 226, Char.ofNat 338]

/-- The literal returned when the joined text is empty. -/
def noResultsText : String := mojiCross ++ " No results found."

/-- A Python exception as observed by handlers: its class name (used by
`except ValueError` dispatch) and its `str()` text (what f-strings show). -/
structure PyExc where
  ty : String
  msg : String
deriving Repr, DecidableEq

/-- Decidable equality for `Except` results, used to evaluate the
embedding at concrete inputs. -/
instance exceptDecEq {e a : Type} [DecidableEq e] [DecidableEq a] :
    DecidableEq (Except e a) := fun x y =>
  match x, y with
  | .error u, .error v =>
    if h : u = v then .isTrue (by rw [h]) else .isFalse (by simp [h])
  | .ok u, .ok v =>
    if h : u = v then .isTrue (by rw [h]) else .isFalse (by simp [h])
  | .error _, .ok _ => .isFalse (by simp)
  | .ok _, .error _ => .isFalse (by simp)

/-- `AttributeError` raised by `.get` on a non-dict value. -/
def attrErrGet (v : Json) : PyExc :=
  ⟨"AttributeError", squote ++ pyTypeName v ++ squote ++
    " object has no attribute " ++ squote ++ "get" ++ squote⟩

/-- `escape_markdown(v, version=2)` on a value taken from parsed JSON:
`re.sub` raises `TypeError` when the value is not a string. -/
def escStr : Json → Except PyExc String
  | .str s => .ok (escapeMarkdownV2 s)
  | v => .error ⟨"TypeError", "expected string or bytes-like object, got " ++
      squote ++ pyTypeName v ++ squote⟩

/-- `f"\x7bup:,\x7d"`: thousands-separated rendering of the upvote value.
Python formats ints (and bools, which are ints) and raises for other
types with a type-dependent message. -/
def commaFmtJ : Json → Except PyExc String
  | .num n => .ok (pyCommaFmt n)
  | .bool b => .ok (if b then "1" else "0")
  | .str _ => .error ⟨"ValueError", "Cannot specify " ++ squote ++ "," ++ squote ++
      " with " ++ squote ++ "s" ++ squote ++ "."⟩
  | v => .error ⟨"TypeError", "unsupported format string passed to " ++
      pyTypeName v ++ ".__format__"⟩

/-- Python slice `l[:n]` for an `int` bound, including negative bounds. -/
def pySliceTo (l : List Json) (n : Int) : List Json :=
  if n < 0 then l.take (l.length - (-n).toNat) else l.take n.toNat

/-- `results[:data.get("limit", 10)]`: the slice bound must be an int
(bools count as ints) or `None` (`l[:None]` is the whole list); other
types raise `TypeError`. -/
def sliceByLimit (results : List Json) : Json → Except PyExc (List Json)
  | .num n => .ok (pySliceTo results n)
  | .bool b => .ok (pySliceTo results (if b then 1 else 0))
  | .null => .ok results
  | _ => .error ⟨"TypeError", "slice indices must be integers or None or have an __index__ method"⟩

/-- The lines the loop body appends for one result item (1-based index
`i`): title line, upvotes line, optional link line, and a blank line.
Non-dict items raise `AttributeError` at `item.get`. -/
def itemLines (includeLinks : Bool) (i : Nat) : Json → Except PyExc (List String)
  | .obj item => do
    let title ← escStr ((jget item "title").getD (.str "No title"))
    let up ← commaFmtJ ((jget item "upvotes").getD (.num 0))
    let link := pyStr ((jget item "permalink").getD (.str ""))
    let sub ← escStr ((jget item "subreddit").getD (.str "unknown"))
    .ok (["*" ++ toString i ++ ". " ++ title ++ "*",
          mojiChart ++ " " ++ up ++ " upvotes | r/" ++ sub] ++
         (if includeLinks then [mojiLink ++ " [Link](https://www.reddit.com" ++ link ++ ")"] else []) ++
         [""])
  | v => .error (attrErrGet v)

/-- The item loop over `enumerate(results[:limit], 1)`. -/
def itemsLoop (includeLinks : Bool) (i : Nat) : List Json → Except PyExc (List String)
  | [] => .ok []
  | item :: rest => do
    let ls ← itemLines includeLinks i item
    let more ← itemsLoop includeLinks (i + 1) rest
    .ok (ls ++ more)

/-- The header parts: user, subreddit and keywords echoes, in order. -/
def headerParts (fields : List (String × Json)) : Except PyExc (List String) := do
  let p1 ← match jget fields "username" with
    | some v => do
      let e ← escStr v
      pure [mojiUser ++ " " ++ e]
    | none => pure []
  let p2 ← match jget fields "subreddit" with
    | some v => do
      let e ← escStr v
      pure [mojiPhone ++ " r/" ++ e]
    | none => pure []
  let p3 ←
    if truthy (jget fields "keywords") then do
      let e ← escStr ((jget fields "keywords").getD .null)
      pure [mojiSearch ++ " " ++ squote ++ e ++ squote]
    else pure []
  pure (p1 ++ p2 ++ p3)

/-- Body of `_format_json_as_text` after a successful `json.loads`.
Errors carry the Python exception text; the source function only guards
the parse, so these propagate to the caller. -/
def formatParsed (data : Json) (includeLinks : Bool) : Except PyExc String :=
  match data with
  | .obj fields =>
    match jget fields "results" with
    | some (.arr results) => do
      let hp ← headerParts fields
      let lines0 := if hp.isEmpty then [] else [joinStr (" | ") hp, ""]
      let limitV := (jget fields "limit").getD (.num 10)
      let sliced ← sliceByLimit results limitV
      let body ← itemsLoop includeLinks 1 sliced
      let text := joinStr "\n" (lines0 ++ body)
      .ok (if text.isEmpty then noResultsText else pyTake 4000 text)
    | _ =>
      -- `isinstance(results, list)` is false: fall back to pretty JSON.
      .ok (escapeMarkdownV2 (pyDumps data))
  | v =>
    -- `data.get("results")` on a non-dict raises AttributeError.
    .error (attrErrGet v)

/-- `_format_json_as_text(data_json, include_links)`, parameterized by the
`json.loads` parse function (`none` models a `json.JSONDecodeError`). -/
def formatJsonAsText (parse : String → Option Json) (dataJson : String)
    (includeLinks : Bool) : Except PyExc String :=
  match parse dataJson with
  | none => .ok (escapeMarkdownV2 dataJson)
  | some data => formatParsed data includeLinks

/-! ### The message chunker `_send_split_messages` -/

/-- The block separator: two newlines. -/
def sepNlNl : List Char := ['\n', '\n']

/-- Index in `l` right after the first occurrence of `sep`, if any. -/
def findSepEnd (sep : List Char) : List Char → Option Nat
  | [] => if sep.isEmpty then some 0 else none
  | c :: rest =>
    if sep.isPrefixOf (c :: rest) then some sep.length
    else (findSepEnd sep rest).map (· + 1)

/-- Fueled splitter body: each found separator consumes at least two
characters, so `l.length` rounds of fuel suffice. -/
def splitNlNlGo : Nat → List Char → List (List Char)
  | 0, l => [l]
  | fuel + 1, l =>
    match findSepEnd sepNlNl l with
    | none => [l]
    | some e => l.take (e - 2) :: splitNlNlGo fuel (l.drop e)

/-- Python `text.split("\n\n")`: leftmost-first, non-overlapping. -/
def splitOnNlNl (l : List Char) : List (List Char) := splitNlNlGo l.length l

/-- Highest index of `c` in `l`, if present. -/
def lastIdxOf (c : Char) : List Char → Option Nat
  | [] => none
  | a :: rest =>
    match lastIdxOf c rest with
    | some j => some (j + 1)
    | none => if a == c then some 0 else none

/-- Python `message.rfind('\n', 0, bound)` as an `Option`. -/
def pyRfindNl (msg : List Char) (bound : Nat) : Option Nat :=
  lastIdxOf '\n' (msg.take bound)

/-- The per-batch truncation of `_send_split_messages`: a message longer
than 4096 characters is cut at the last newline before index 4096, or
hard at 4096 when no newline is there. -/
def truncMsg (msg : List Char) : List Char :=
  if msg.length > 4096 then
    let si := match pyRfindNl msg 4096 with
      | some i => i
      | none => 4096
    msg.take si
  else msg

/-- The chunking pipeline of `_send_split_messages` on an already-split
caption list: batches of 20 captions, each joined with the double-newline
separator and truncated to the Telegram limit. -/
def chunkBlocks (captions : List (List Char)) : List (List Char) :=
  (chunksOf 20 captions).map (fun batch => truncMsg (joinSep sepNlNl batch))

/-- `_send_split_messages(context, chat_id, text, parse_mode)`: the list
of message texts passed to `bot.send_message`, in order.  (Send failures
are logged and swallowed by the source; sending is modelled as pure.) -/
def sendSplitMessages (text : String) : List String :=
  (chunkBlocks (splitOnNlNl text.toList)).map String.mk

/-- One step of the greedy packer the specification describes: add the
next block to the current message unless doing so would exceed the
block-count cap or the length cap measured after joining with the
separator; in that case flush the current message and start a new one. -/
def specGreedyStep (maxLen maxBlocks : Nat)
    (acc : List (List (List Char)) × List (List Char)) (b : List Char) :
    List (List (List Char)) × List (List Char) :=
  match acc with
  | (done, cur) =>
    if cur.isEmpty then (done, [b])
    else if cur.length + 1 > maxBlocks ||
            (joinSep sepNlNl (cur ++ [b])).length > maxLen then
      (done ++ [cur], [b])
    else (done, cur ++ [b])

/-- The chunker as worded by the specification (refinement model for the
greedy-packing claim): consecutive whole blocks are packed greedily under
both caps, and a cap overflow starts a new message. -/
def specGreedyChunk (maxLen maxBlocks : Nat) (blocks : List (List Char)) :
    List (List Char) :=
  match blocks.foldl (specGreedyStep maxLen maxBlocks) ([], []) with
  | (done, cur) =>
    (if cur.isEmpty then done else done ++ [cur]).map (joinSep sepNlNl)

/-! ### The conversation engine: `conversation_data`, `handle_message`,
`button_callback` -/

/-- Values stored in a conversation's `data` dict. -/
inductive Value where
  | str (s : String)
  | int (n : Int)
  | bool (b : Bool)
deriving Repr, DecidableEq

/-- The per-conversation `data` dict: insertion-ordered association list
(CPython dicts preserve insertion order). -/
abbrev DataMap := List (String × Value)

/-- Python `key in data`. -/
def hasK : DataMap → String → Bool
  | [], _ => false
  | (k, _) :: rest, key => k == key || hasK rest key

/-- Python `data[key] = v`: overwrite in place, else append. -/
def setK : DataMap → String → Value → DataMap
  | [], key, v => [(key, v)]
  | (k, w) :: rest, key, v =>
    if k == key then (key, v) :: rest else (k, w) :: setK rest key v

/-- Python `data[key]` on the paths where the key is present; absent keys
yield a placeholder (those paths are guarded by `hasK` in the source, so
a `KeyError` cannot occur where this is used). -/
def dget (d : DataMap) (key : String) : Value :=
  match d with
  | [] => .str ""
  | (k, v) :: rest => if k == key then v else dget rest key

/-- Python `data.get(key, default)`. -/
def dgetD (d : DataMap) (key : String) (dflt : Value) : Value :=
  if hasK d key then dget d key else dflt

/-- The four guided commands. -/
inductive Command where
  | user_details
  | user_top
  | subreddit_hot
  | subreddit_top
deriving Repr, DecidableEq

/-- One entry of `conversation_data`: `{"command": ..., "data": ...}`. -/
structure Conv where
  command : Command
  data : DataMap
deriving Repr, DecidableEq

/-- The process-wide `conversation_data` dict, keyed by user id. -/
abbrev Store := List (Nat × Conv)

/-- Python `user_id in conversation_data` / read access. -/
def lookupS : Store → Nat → Option Conv
  | [], _ => none
  | (k, c) :: rest, uid => if k == uid then some c else lookupS rest uid

/-- Python `conversation_data[user_id] = conv`. -/
def setS : Store → Nat → Conv → Store
  | [], uid, c => [(uid, c)]
  | (k, c') :: rest, uid, c =>
    if k == uid then (uid, c) :: rest else (k, c') :: setS rest uid c

/-- Python `del conversation_data[user_id]`. -/
def eraseS (st : Store) (uid : Nat) : Store :=
  st.filter (fun p => p.1 != uid)

/-- A call to one of the `reddit_service` fetch functions, with the
argument values exactly as passed (keyword arguments in source order). -/
inductive FetchCall where
  | accountDetails (username periodDays : Value)
  | top30Captions (username keywords limitV : Value) (captionsOnly : Bool)
  | top20Hot (subredditName keywords limitV : Value) (captionsOnly : Bool)
  | top20AllTime (subredditName keywords limitV : Value) (captionsOnly : Bool)
deriving Repr, DecidableEq

/-- An outbound chat message: a `reply_text`/`send_message` or an
`edit_message_text`, with the `callback_data` strings of any inline
keyboard attached (button labels are not modelled). -/
inductive Outgoing where
  | reply (s : String) (buttons : List String)
  | edit (s : String) (buttons : List String)
deriving Repr, DecidableEq

/-- The observable outcome of handling one inbound event: the outbound
messages in order, the store afterwards, the fetch calls made in order,
and the text of an exception that escaped the handler, if any. -/
structure StepResult where
  outs : List Outgoing
  store : Store
  fetchCalls : List FetchCall
  raisedExc : Option PyExc
deriving Repr, DecidableEq

/-- The no-active-session hint of `handle_message`. -/
def noSessionHint : String :=
  "Please use one of the commands first: /user_details, /user_top, /subreddit_hot, or /subreddit_top"

/-- The username prompt (source: `"What's the Reddit username you want to check? (without u/)"`). -/
def askUsername : String :=
  "What" ++ squote ++ "s the Reddit username you want to check? (without u/)"

/-- The subreddit prompt. -/
def askSubreddit : String := "What subreddit do you want to check? (without r/)"

/-- The days prompt of `user_details`. -/
def askDays : String := "How many days back should I check? (default: 1)"

/-- The days validation-retry message of `user_details`. -/
def askDaysRetry : String :=
  "Please enter a valid number of days (or just press Enter for default 1)"

/-- The keywords prompt, offered with a `no_keywords` button. -/
def askKeywords : String := "Any keywords to filter by? (optional)"

/-- The limit prompt offered with preset buttons. -/
def askLimit : String := "How many posts to show?"

/-- The callback data of the limit preset buttons. -/
def limitButtons : List String :=
  ["limit_10", "limit_20", "limit_30", "limit_40", "limit_50"]

/-- The include-links prompt. -/
def askLinks : String := "Do you want links included in the results? (default: yes)"

/-- The callback data of the include-links buttons. -/
def linkButtons : List String := ["include_links_yes", "include_links_no"]

/-- Python `str(ValueError)` raised by `int(user_input)`. -/
def intErrMsg (input : String) : String :=
  "invalid literal for int() with base 10: " ++ pyReprStr input

/-- The `ValueError` raised by `int(user_input)`. -/
def intValueError (input : String) : PyExc := ⟨"ValueError", intErrMsg input⟩

/-- The help text shown by the `help` button (double-encoded emoji as in
the source file). -/
def helpBtnText : String :=
  "**Available Commands:**\n\n" ++
  mojiSearch ++ " **User Details** - Get account stats for any Reddit user\n" ++
  String.mk [Char.ofNat 240, Char.ofNat 376, Char.ofNat 8220, Char.ofNat 710] ++
  " **User Top Posts** - Find top posts by a specific user\n" ++
  String.mk [Char.ofNat 240, Char.ofNat 376, Char.ofNat 8221, Char.ofNat 165] ++
  " **Hot Posts** - Get trending posts from any subreddit\n" ++
  String.mk [Char.ofNat 240, Char.ofNat 376, Char.ofNat 8224] ++
  " **Top Posts** - Get all-time top posts from any subreddit\n\n" ++
  "Just tap a button or use the commands directly!"

/-- The body of the inner `try` of the `user_details` days step after
`data["days"]` is set: fetch, format, send, delete; a `ValueError` from
the call chain is answered with the retry prompt and keeps the session,
any other exception is answered with `f"Error: \x7bexc\x7d"` and deletes
it. -/
def userDetailsDispatch (fetch : FetchCall → Except PyExc String)
    (parse : String → Option Json) (store' : Store) (uid : Nat)
    (call : FetchCall) : StepResult :=
  match fetch call with
  | .error e =>
    if e.ty == "ValueError" then
      ⟨[.reply askDaysRetry []], store', [call], none⟩
    else
      ⟨[.reply ("Error: " ++ e.msg) []], eraseS store' uid, [call], none⟩
  | .ok resultJson =>
    match formatJsonAsText parse resultJson true with
    | .error e =>
      if e.ty == "ValueError" then
        ⟨[.reply askDaysRetry []], store', [call], none⟩
      else
        ⟨[.reply ("Error: " ++ e.msg) []], eraseS store' uid, [call], none⟩
    | .ok text =>
      ⟨(sendSplitMessages text).map (fun m => .reply m []),
       eraseS store' uid, [call], none⟩

/-- `handle_message(update, context)`: one inbound free-text message for
`uid`.  `fetch` models the `reddit_service` functions (a raised exception
becomes `Except.error`), `parse` models `json.loads`.  Replies are pure;
the outer `except Exception` of the source therefore only ever sees the
`ValueError` of `int(user_input)` and exceptions crossing the dispatch
call chain. -/
def handleMessage (fetch : FetchCall → Except PyExc String)
    (parse : String → Option Json) (store : Store) (uid : Nat)
    (rawText : String) : StepResult :=
  match lookupS store uid with
  | none => ⟨[.reply noSessionHint []], store, [], none⟩
  | some conv =>
    let input := pyStrip rawText
    let data := conv.data
    match conv.command with
    | .user_details =>
      if !hasK data "username" then
        ⟨[.reply askDays []],
         setS store uid ⟨.user_details, setK data "username" (.str input)⟩, [], none⟩
      else if !hasK data "days" then
        -- `days = int(user_input) if user_input else 1` inside the inner try
        match (if input ≠ "" then pyInt input else some 1) with
        | none =>
          -- `except ValueError`: re-prompt, session kept (days not yet set)
          ⟨[.reply askDaysRetry []], store, [], none⟩
        | some days =>
          let data' := setK data "days" (.int days)
          userDetailsDispatch fetch parse (setS store uid ⟨.user_details, data'⟩) uid
            (FetchCall.accountDetails (dget data' "username") (dget data' "days"))
      else ⟨[], store, [], none⟩
    | .user_top =>
      if !hasK data "username" then
        ⟨[.reply askKeywords ["no_keywords"]],
         setS store uid ⟨.user_top, setK data "username" (.str input)⟩, [], none⟩
      else if !hasK data "keywords" then
        -- `user_input if user_input else ""` equals the stripped input
        ⟨[.reply askLimit limitButtons],
         setS store uid ⟨.user_top, setK data "keywords" (.str input)⟩, [], none⟩
      else if !hasK data "limit" then
        match (if input ≠ "" then pyInt input else some 30) with
        | none =>
          -- the `ValueError` of `int` reaches the outer handler: error
          -- message and session deletion
          ⟨[.reply ("An error occurred: " ++ intErrMsg input) []],
           eraseS store uid, [], none⟩
        | some limit =>
          ⟨[.reply askLinks linkButtons],
           setS store uid ⟨.user_top, setK data "limit" (.int limit)⟩, [], none⟩
      else ⟨[], store, [], none⟩
    | .subreddit_hot =>
      if !hasK data "subreddit" then
        ⟨[.reply askKeywords ["no_keywords"]],
         setS store uid ⟨.subreddit_hot, setK data "subreddit" (.str input)⟩, [], none⟩
      else if !hasK data "keywords" then
        ⟨[.reply askLimit limitButtons],
         setS store uid ⟨.subreddit_hot, setK data "keywords" (.str input)⟩, [], none⟩
      else if !hasK data "limit" then
        match (if input ≠ "" then pyInt input else some 20) with
        | none =>
          ⟨[.reply ("An error occurred: " ++ intErrMsg input) []],
           eraseS store uid, [], none⟩
        | some limit =>
          ⟨[.reply askLinks linkButtons],
           setS store uid ⟨.subreddit_hot, setK data "limit" (.int limit)⟩, [], none⟩
      else ⟨[], store, [], none⟩
    | .subreddit_top =>
      if !hasK data "subreddit" then
        ⟨[.reply askKeywords ["no_keywords"]],
         setS store uid ⟨.subreddit_top, setK data "subreddit" (.str input)⟩, [], none⟩
      else if !hasK data "keywords" then
        ⟨[.reply askLimit limitButtons],
         setS store uid ⟨.subreddit_top, setK data "keywords" (.str input)⟩, [], none⟩
      else if !hasK data "limit" then
        match (if input ≠ "" then pyInt input else some 20) with
        | none =>
          ⟨[.reply ("An error occurred: " ++ intErrMsg input) []],
           eraseS store uid, [], none⟩
        | some limit =>
          ⟨[.reply askLinks linkButtons],
           setS store uid ⟨.subreddit_top, setK data "limit" (.int limit)⟩, [], none⟩
      else ⟨[], store, [], none⟩

/-- The `try`/`except`/`finally` around the dispatch in the
`include_links_` branch of `button_callback`: fetch, format, send, with
any failure text escaped into an error reply, and the session deleted in
all cases. -/
def dispatchResult (fetch : FetchCall → Except PyExc String)
    (parse : String → Option Json) (store' : Store) (uid : Nat)
    (call : FetchCall) (includeLinks : Bool) : StepResult :=
  match fetch call with
  | .error e =>
    ⟨[.reply ("Error: " ++ escapeMarkdownV2 e.msg) []], eraseS store' uid, [call], none⟩
  | .ok resultJson =>
    match formatJsonAsText parse resultJson includeLinks with
    | .error e =>
      ⟨[.reply ("Error: " ++ escapeMarkdownV2 e.msg) []], eraseS store' uid, [call], none⟩
    | .ok text =>
      ⟨(sendSplitMessages text).map (fun m => .reply m []),
       eraseS store' uid, [call], none⟩

/-- Python `s.startswith(pre)` on code points (structural, unlike
`String.startsWith`, whose byte loop does not reduce in the kernel). -/
def strStarts (s pre : String) : Bool := pre.toList.isPrefixOf s.toList

/-- Split a character list on a single character (Python `s.split("_")`). -/
def splitOnChar (c : Char) : List Char → List (List Char)
  | [] => [[]]
  | a :: rest =>
    if a == c then [] :: splitOnChar c rest
    else
      match splitOnChar c rest with
      | [] => [[a]]
      | g :: gs => (a :: g) :: gs

/-- `query.data.split("_")[1]` (the `limit_` branch guarantees at least
two parts). -/
def splitUndSecond (s : String) : String :=
  match splitOnChar '_' s.toList with
  | _ :: p :: _ => String.mk p
  | _ => ""

/-- `button_callback(update, context)`: one button press for `uid`.  The
source is a sequence of `if` blocks whose guards are pairwise exclusive
on every input (no `query.data` string matches two of them), so they are
transcribed as a single conditional chain.  After the `include_links_`
block falls through its `finally`, the remaining guards never match, so
the early-`return`-free fallthrough is unobservable. -/
def buttonCallback (fetch : FetchCall → Except PyExc String)
    (parse : String → Option Json) (store : Store) (uid : Nat)
    (cbData : String) : StepResult :=
  if cbData == "help" then ⟨[.edit helpBtnText []], store, [], none⟩
  else if strStarts cbData "include_links_" then
    match lookupS store uid with
    | none => ⟨[], store, [], none⟩
    | some conv =>
      let includeLinks := cbData == "include_links_yes"
      let data' := setK conv.data "include_links" (.bool includeLinks)
      let store' := setS store uid ⟨conv.command, data'⟩
      match conv.command with
      | .user_top =>
        if hasK data' "username" then
          dispatchResult fetch parse store' uid
            (.top30Captions (dget data' "username")
              (dgetD data' "keywords" (.str "")) (dgetD data' "limit" (.int 30)) false)
            includeLinks
        else
          -- `data["username"]` raises `KeyError` before any fetch; the
          -- `except` replies with the escaped `str(exc)` (the repr of the
          -- key) and the `finally` deletes the session
          ⟨[.reply ("Error: " ++ escapeMarkdownV2 (pyReprStr "username")) []],
           eraseS store' uid, [], none⟩
      | .subreddit_hot =>
        if hasK data' "subreddit" then
          dispatchResult fetch parse store' uid
            (.top20Hot (dget data' "subreddit")
              (dgetD data' "keywords" (.str "")) (dgetD data' "limit" (.int 20)) false)
            includeLinks
        else
          ⟨[.reply ("Error: " ++ escapeMarkdownV2 (pyReprStr "subreddit")) []],
           eraseS store' uid, [], none⟩
      | .subreddit_top =>
        if hasK data' "subreddit" then
          dispatchResult fetch parse store' uid
            (.top20AllTime (dget data' "subreddit")
              (dgetD data' "keywords" (.str "")) (dgetD data' "limit" (.int 20)) false)
            includeLinks
        else
          ⟨[.reply ("Error: " ++ escapeMarkdownV2 (pyReprStr "subreddit")) []],
           eraseS store' uid, [], none⟩
      | .user_details =>
        -- the `else` arm replies "Invalid command." and returns, and the
        -- `finally` still deletes the session
        ⟨[.reply ("Invalid command.") []], eraseS store' uid, [], none⟩
  else if cbData == "user_details" then
    ⟨[.edit askUsername []], setS store uid ⟨.user_details, []⟩, [], none⟩
  else if cbData == "user_top" then
    ⟨[.edit askUsername []], setS store uid ⟨.user_top, []⟩, [], none⟩
  else if cbData == "subreddit_hot" then
    ⟨[.edit askSubreddit []], setS store uid ⟨.subreddit_hot, []⟩, [], none⟩
  else if cbData == "subreddit_top" then
    ⟨[.edit askSubreddit []], setS store uid ⟨.subreddit_top, []⟩, [], none⟩
  else if cbData == "no_keywords" then
    match lookupS store uid with
    | none => ⟨[], store, [], none⟩
    | some conv =>
      let store' := setS store uid ⟨conv.command, setK conv.data "keywords" (.str "")⟩
      match conv.command with
      | .user_top => ⟨[.edit ("How many posts to show? (default: 30)") []], store', [], none⟩
      | .subreddit_hot => ⟨[.edit ("How many posts to show? (default: 20)") []], store', [], none⟩
      | .subreddit_top => ⟨[.edit ("How many posts to show? (default: 20)") []], store', [], none⟩
      | .user_details => ⟨[], store', [], none⟩
  else if strStarts cbData "limit_" then
    match lookupS store uid with
    | none => ⟨[], store, [], none⟩
    | some conv =>
      match pyInt (splitUndSecond cbData) with
      | none =>
        -- `int` raises and nothing catches it inside the handler
        ⟨[], store, [], some (intValueError (splitUndSecond cbData))⟩
      | some limit =>
        let store' := setS store uid ⟨conv.command, setK conv.data "limit" (.int limit)⟩
        match conv.command with
        | .user_top => ⟨[.edit askLinks linkButtons], store', [], none⟩
        | .subreddit_hot => ⟨[.edit askLinks linkButtons], store', [], none⟩
        | .subreddit_top => ⟨[.edit askLinks linkButtons], store', [], none⟩
        | .user_details => ⟨[], store', [], none⟩
  else ⟨[], store, [], none⟩

/-- One inbound event: a free-text message or a button press. -/
inductive Event where
  | msg (text : String)
  | cb (data : String)
deriving Repr, DecidableEq

/-- Observable trace of a run: final store, outbound messages in order,
fetch calls in order. -/
structure Trace where
  store : Store
  outs : List Outgoing
  fetchCalls : List FetchCall
deriving Repr, DecidableEq

/-- Handle one event. -/
def stepEvent (fetch : FetchCall → Except PyExc String)
    (parse : String → Option Json) (uid : Nat) (st : Store) :
    Event → StepResult
  | .msg t => handleMessage fetch parse st uid t
  | .cb d => buttonCallback fetch parse st uid d

/-- Handle a sequence of events for one user, accumulating the trace. -/
def runEvents (fetch : FetchCall → Except PyExc String)
    (parse : String → Option Json) (uid : Nat) :
    Store → List Event → Trace
  | st, [] => ⟨st, [], []⟩
  | st, e :: rest =>
    let r := stepEvent fetch parse uid st e
    let t := runEvents fetch parse uid r.store rest
    ⟨t.store, r.outs ++ t.outs, r.fetchCalls ++ t.fetchCalls⟩

/-- A fetch collaborator that always fails the way `reddit_service`
fails: a `RuntimeError` carrying a description. -/
def exFetch : FetchCall → Except PyExc String :=
  fun _ => .error ⟨"RuntimeError", "Reddit API error: boom"⟩

/-- A parse stub for runs that never reach a successful format. -/
def exParse : String → Option Json := fun _ => none

/-! ### Helper lemmas -/

theorem lookupS_setS_self (st : Store) (uid : Nat) (c : Conv) :
    lookupS (setS st uid c) uid = some c := by
  induction st with
  | nil => simp [setS, lookupS]
  | cons p rest ih =>
    obtain ⟨k, c'⟩ := p
    by_cases h : k = uid
    · subst h
      simp [setS, lookupS]
    · simp [setS, lookupS, h, ih]

theorem lookupS_eraseS_self (st : Store) (uid : Nat) :
    lookupS (eraseS st uid) uid = none := by
  induction st with
  | nil => rfl
  | cons p rest ih =>
    obtain ⟨k, c'⟩ := p
    by_cases h : k = uid
    · subst h
      simpa [eraseS, List.filter_cons] using ih
    · have hk : ((uid : Nat) == k) = false ∨ True := Or.inr trivial
      simp only [eraseS, List.filter_cons] at ih ⊢
      have hkeep : (k != uid) = true := by simp [h]
      simp [hkeep, lookupS, h, ih]

theorem hasK_setK_ne (d : DataMap) (k k' : String) (v : Value) (h : k' ≠ k) :
    hasK (setK d k v) k' = hasK d k' := by
  induction d with
  | nil => simp [setK, hasK, h, Ne.symm h]
  | cons p rest ih =>
    obtain ⟨k0, v0⟩ := p
    by_cases h0 : k0 = k
    · subst h0
      simp [setK, hasK, h, Ne.symm h]
    · simp [setK, hasK, h0, ih]

theorem dget_setK_self (d : DataMap) (k : String) (v : Value) :
    dget (setK d k v) k = v := by
  induction d with
  | nil => simp [setK, dget]
  | cons p rest ih =>
    obtain ⟨k0, v0⟩ := p
    by_cases h0 : k0 = k
    · subst h0
      simp [setK, dget]
    · simp [setK, dget, h0, ih]

theorem dget_setK_ne (d : DataMap) (k k' : String) (v : Value) (h : k' ≠ k) :
    dget (setK d k v) k' = dget d k' := by
  induction d with
  | nil => simp [setK, dget, Ne.symm h]
  | cons p rest ih =>
    obtain ⟨k0, v0⟩ := p
    by_cases h0 : k0 = k
    · subst h0
      simp [setK, dget, Ne.symm h]
    · simp [setK, dget, h0, ih]

theorem dgetD_setK_ne (d : DataMap) (k k' : String) (v dflt : Value) (h : k' ≠ k) :
    dgetD (setK d k v) k' dflt = dgetD d k' dflt := by
  simp [dgetD, hasK_setK_ne d k k' v h, dget_setK_ne d k k' v h]

theorem chunksOfGo_flatten (n : Nat) (hn : 0 < n) :
    ∀ (fuel : Nat) (l : List α), l.length ≤ fuel →
      (chunksOfGo n fuel l).flatten = l := by
  intro fuel
  induction fuel with
  | zero =>
    intro l hl
    have : l = [] := List.eq_nil_of_length_eq_zero (Nat.le_zero.mp hl)
    subst this
    rfl
  | succ fuel ih =>
    intro l hl
    cases l with
    | nil => rfl
    | cons x rest =>
      simp only [chunksOfGo, List.flatten_cons]
      rw [ih (rest.drop (n - 1)) (by simp at hl ⊢; omega)]
      obtain ⟨m, rfl⟩ := Nat.exists_eq_succ_of_ne_zero (Nat.pos_iff_ne_zero.mp hn)
      simp [List.take_succ_cons, List.take_append_drop]

theorem chunksOf_join (n : Nat) (hn : 0 < n) (l : List α) :
    (chunksOf n l).flatten = l := by
  rw [chunksOf, if_neg (Nat.pos_iff_ne_zero.mp hn)]
  exact chunksOfGo_flatten n hn l.length l (le_refl _)

theorem chunksOfGo_mem_length_le (n : Nat) :
    ∀ (fuel : Nat) (l : List α) (b : List α), b ∈ chunksOfGo n fuel l →
      b.length ≤ n := by
  intro fuel
  induction fuel with
  | zero =>
    intro l b hb
    cases l <;> simp [chunksOfGo] at hb
  | succ fuel ih =>
    intro l b hb
    cases l with
    | nil => simp [chunksOfGo] at hb
    | cons x rest =>
      simp only [chunksOfGo, List.mem_cons] at hb
      rcases hb with rfl | hb
      · exact List.length_take_le n (x :: rest)
      · exact ih (rest.drop (n - 1)) b hb

theorem chunksOf_mem_length_le (n : Nat) (l : List α) :
    ∀ b ∈ chunksOf n l, b.length ≤ n := by
  intro b hb
  rw [chunksOf] at hb
  by_cases hn0 : n = 0
  · simp [hn0] at hb
  · rw [if_neg hn0] at hb
    exact chunksOfGo_mem_length_le n l.length l b hb

theorem chunksOfGo_mem_ne_nil (n : Nat) (hn : 0 < n) :
    ∀ (fuel : Nat) (l : List α) (b : List α), b ∈ chunksOfGo n fuel l →
      b ≠ [] := by
  intro fuel
  induction fuel with
  | zero =>
    intro l b hb
    cases l <;> simp [chunksOfGo] at hb
  | succ fuel ih =>
    intro l b hb
    cases l with
    | nil => simp [chunksOfGo] at hb
    | cons x rest =>
      simp only [chunksOfGo, List.mem_cons] at hb
      rcases hb with rfl | hb
      · obtain ⟨m, rfl⟩ := Nat.exists_eq_succ_of_ne_zero (Nat.pos_iff_ne_zero.mp hn)
        simp [List.take_succ_cons]
      · exact ih (rest.drop (n - 1)) b hb

theorem chunksOf_mem_ne_nil (n : Nat) (hn : 0 < n) (l : List α) :
    ∀ b ∈ chunksOf n l, b ≠ [] := by
  intro b hb
  rw [chunksOf, if_neg (Nat.pos_iff_ne_zero.mp hn)] at hb
  exact chunksOfGo_mem_ne_nil n hn l.length l b hb

theorem joinSep_append (sep : List α) (A B : List (List α))
    (hA : A ≠ []) (hB : B ≠ []) :
    joinSep sep (A ++ B) = joinSep sep A ++ sep ++ joinSep sep B := by
  induction A with
  | nil => exact absurd rfl hA
  | cons a A' ih =>
    cases A' with
    | nil =>
      cases B with
      | nil => exact absurd rfl hB
      | cons b B' => simp [joinSep]
    | cons a2 A'' =>
      have h2 : a2 :: A'' ≠ [] := by simp
      have step : (a2 :: A'') ++ B = a2 :: (A'' ++ B) := rfl
      calc joinSep sep ((a :: a2 :: A'') ++ B)
          = a ++ sep ++ joinSep sep ((a2 :: A'') ++ B) := by
            cases A'' <;> cases B <;> simp [joinSep]
        _ = a ++ sep ++ (joinSep sep (a2 :: A'') ++ sep ++ joinSep sep B) := by
            rw [ih h2]
        _ = joinSep sep (a :: a2 :: A'') ++ sep ++ joinSep sep B := by
            simp [joinSep]

theorem flattenNeNilOfParts (batches : List (List α))
    (hne : batches ≠ []) (hall : ∀ b ∈ batches, b ≠ []) :
    batches.flatten ≠ [] := by
  cases batches with
  | nil => exact absurd rfl hne
  | cons b rest =>
    have hb : b ≠ [] := hall b (List.mem_cons_self b rest)
    simp only [List.flatten_cons]
    intro h
    exact hb (List.append_eq_nil.mp h).1

theorem joinSep_map_joinSep (sep : List α) (batches : List (List (List α)))
    (hall : ∀ b ∈ batches, b ≠ []) :
    joinSep sep (batches.map (joinSep sep)) = joinSep sep batches.flatten := by
  induction batches with
  | nil => simp [joinSep]
  | cons b rest ih =>
    cases rest with
    | nil => simp [joinSep]
    | cons b2 rest' =>
      have hb : b ≠ [] := hall b (by simp)
      have hrest : ∀ x ∈ b2 :: rest', x ≠ [] := fun x hx => hall x (by simp [hx])
      have hjoin : (b2 :: rest').flatten ≠ [] :=
        flattenNeNilOfParts (b2 :: rest') (by simp) hrest
      calc joinSep sep ((b :: b2 :: rest').map (joinSep sep))
          = joinSep sep b ++ sep ++ joinSep sep ((b2 :: rest').map (joinSep sep)) := by
            simp [joinSep]
        _ = joinSep sep b ++ sep ++ joinSep sep (b2 :: rest').flatten := by
            rw [ih hrest]
        _ = joinSep sep (b ++ (b2 :: rest').flatten) := by
            rw [joinSep_append sep b (b2 :: rest').flatten hb hjoin]
        _ = joinSep sep (b :: b2 :: rest').flatten := by simp

theorem strStarts_links_yes : strStarts "include_links_yes" "include_links_" = true := by
  decide

theorem strStarts_links_no : strStarts "include_links_no" "include_links_" = true := by
  decide

theorem strStarts_nokw : strStarts "no_keywords" "include_links_" = false := by
  decide

/-- Result of a `user_details` start button. -/
theorem btnStartUserDetails (f : FetchCall → Except PyExc String)
    (p : String → Option Json) (st : Store) (uid : Nat) :
    buttonCallback f p st uid "user_details" =
      ⟨[.edit askUsername []], setS st uid ⟨.user_details, []⟩, [], none⟩ := rfl

/-- Result of a `user_top` start button. -/
theorem btnStartUserTop (f : FetchCall → Except PyExc String)
    (p : String → Option Json) (st : Store) (uid : Nat) :
    buttonCallback f p st uid "user_top" =
      ⟨[.edit askUsername []], setS st uid ⟨.user_top, []⟩, [], none⟩ := rfl

/-- Result of a `subreddit_hot` start button. -/
theorem btnStartSubHot (f : FetchCall → Except PyExc String)
    (p : String → Option Json) (st : Store) (uid : Nat) :
    buttonCallback f p st uid "subreddit_hot" =
      ⟨[.edit askSubreddit []], setS st uid ⟨.subreddit_hot, []⟩, [], none⟩ := rfl

/-- Result of a `subreddit_top` start button. -/
theorem btnStartSubTop (f : FetchCall → Except PyExc String)
    (p : String → Option Json) (st : Store) (uid : Nat) :
    buttonCallback f p st uid "subreddit_top" =
      ⟨[.edit askSubreddit []], setS st uid ⟨.subreddit_top, []⟩, [], none⟩ := rfl

/-- The include-links button on a `user_top` session dispatches. -/
theorem btnLinksUserTop (f : FetchCall → Except PyExc String)
    (p : String → Option Json) (st : Store) (uid : Nat) (d : DataMap) (b : Bool)
    (h : lookupS st uid = some ⟨.user_top, d⟩) (hk : hasK d "username" = true) :
    buttonCallback f p st uid (if b then "include_links_yes" else "include_links_no") =
      dispatchResult f p (setS st uid ⟨.user_top, setK d "include_links" (.bool b)⟩) uid
        (.top30Captions (dget (setK d "include_links" (.bool b)) "username")
          (dgetD (setK d "include_links" (.bool b)) "keywords" (.str ""))
          (dgetD (setK d "include_links" (.bool b)) "limit" (.int 30)) false)
        b := by
  cases b
  · rw [if_neg (by simp), buttonCallback.eq_def, h]
    simp [strStarts_links_no,
      hasK_setK_ne d "include_links" "username" (.bool false) (by decide), hk]
  · rw [if_pos rfl, buttonCallback.eq_def, h]
    simp [strStarts_links_yes,
      hasK_setK_ne d "include_links" "username" (.bool true) (by decide), hk]

/-- The include-links button on a `subreddit_hot` session dispatches. -/
theorem btnLinksSubHot (f : FetchCall → Except PyExc String)
    (p : String → Option Json) (st : Store) (uid : Nat) (d : DataMap) (b : Bool)
    (h : lookupS st uid = some ⟨.subreddit_hot, d⟩)
    (hk : hasK d "subreddit" = true) :
    buttonCallback f p st uid (if b then "include_links_yes" else "include_links_no") =
      dispatchResult f p (setS st uid ⟨.subreddit_hot, setK d "include_links" (.bool b)⟩) uid
        (.top20Hot (dget (setK d "include_links" (.bool b)) "subreddit")
          (dgetD (setK d "include_links" (.bool b)) "keywords" (.str ""))
          (dgetD (setK d "include_links" (.bool b)) "limit" (.int 20)) false)
        b := by
  cases b
  · rw [if_neg (by simp), buttonCallback.eq_def, h]
    simp [strStarts_links_no,
      hasK_setK_ne d "include_links" "subreddit" (.bool false) (by decide), hk]
  · rw [if_pos rfl, buttonCallback.eq_def, h]
    simp [strStarts_links_yes,
      hasK_setK_ne d "include_links" "subreddit" (.bool true) (by decide), hk]

/-- The include-links button on a `subreddit_top` session dispatches. -/
theorem btnLinksSubTop (f : FetchCall → Except PyExc String)
    (p : String → Option Json) (st : Store) (uid : Nat) (d : DataMap) (b : Bool)
    (h : lookupS st uid = some ⟨.subreddit_top, d⟩)
    (hk : hasK d "subreddit" = true) :
    buttonCallback f p st uid (if b then "include_links_yes" else "include_links_no") =
      dispatchResult f p (setS st uid ⟨.subreddit_top, setK d "include_links" (.bool b)⟩) uid
        (.top20AllTime (dget (setK d "include_links" (.bool b)) "subreddit")
          (dgetD (setK d "include_links" (.bool b)) "keywords" (.str ""))
          (dgetD (setK d "include_links" (.bool b)) "limit" (.int 20)) false)
        b := by
  cases b
  · rw [if_neg (by simp), buttonCallback.eq_def, h]
    simp [strStarts_links_no,
      hasK_setK_ne d "include_links" "subreddit" (.bool false) (by decide), hk]
  · rw [if_pos rfl, buttonCallback.eq_def, h]
    simp [strStarts_links_yes,
      hasK_setK_ne d "include_links" "subreddit" (.bool true) (by decide), hk]

/-- The dispatch always fetches exactly once. -/
theorem dispatchResult_fetchCalls (f : FetchCall → Except PyExc String)
    (p : String → Option Json) (st' : Store) (uid : Nat) (call : FetchCall)
    (il : Bool) : (dispatchResult f p st' uid call il).fetchCalls = [call] := by
  rw [dispatchResult]
  split
  · rfl
  · split <;> rfl

/-- The dispatch always deletes the session (the `finally`). -/
theorem dispatchResult_lookup (f : FetchCall → Except PyExc String)
    (p : String → Option Json) (st' : Store) (uid : Nat) (call : FetchCall)
    (il : Bool) : lookupS (dispatchResult f p st' uid call il).store uid = none := by
  rw [dispatchResult]
  split
  · exact lookupS_eraseS_self st' uid
  · split
    · exact lookupS_eraseS_self st' uid
    · exact lookupS_eraseS_self st' uid

/-- A fetch failure in the dispatch produces the escaped error reply. -/
theorem dispatchResult_err (f : FetchCall → Except PyExc String)
    (p : String → Option Json) (st' : Store) (uid : Nat) (call : FetchCall)
    (il : Bool) (e : PyExc) (hf : f call = .error e) :
    dispatchResult f p st' uid call il =
      ⟨[.reply ("Error: " ++ escapeMarkdownV2 e.msg) []], eraseS st' uid, [call], none⟩ := by
  rw [dispatchResult, hf]

/-- The `user_details` dispatch always fetches exactly once. -/
theorem userDetailsDispatch_fetchCalls (f : FetchCall → Except PyExc String)
    (p : String → Option Json) (st' : Store) (uid : Nat) (call : FetchCall) :
    (userDetailsDispatch f p st' uid call).fetchCalls = [call] := by
  rw [userDetailsDispatch]
  split
  · split <;> rfl
  · split
    · split <;> rfl
    · rfl

/-- A non-`ValueError` fetch failure in the `user_details` dispatch
produces the unescaped error reply and deletes the session. -/
theorem userDetailsDispatch_err (f : FetchCall → Except PyExc String)
    (p : String → Option Json) (st' : Store) (uid : Nat) (call : FetchCall)
    (e : PyExc) (hf : f call = .error e) (hty : e.ty ≠ "ValueError") :
    userDetailsDispatch f p st' uid call =
      ⟨[.reply ("Error: " ++ e.msg) []], eraseS st' uid, [call], none⟩ := by
  rw [userDetailsDispatch, hf]
  simp [hty]

/-- A fully successful `user_details` dispatch sends the chunked messages
and deletes the session. -/
theorem userDetailsDispatch_ok (f : FetchCall → Except PyExc String)
    (p : String → Option Json) (st' : Store) (uid : Nat) (call : FetchCall)
    (j t : String) (hf : f call = .ok j) (hfmt : formatJsonAsText p j true = .ok t) :
    userDetailsDispatch f p st' uid call =
      ⟨(sendSplitMessages t).map (fun m => .reply m []), eraseS st' uid, [call], none⟩ := by
  rw [userDetailsDispatch, hf]
  simp [hfmt]

/-- The username step of `user_details`. -/
theorem hmUDUsername (f : FetchCall → Except PyExc String)
    (p : String → Option Json) (st : Store) (uid : Nat) (d : DataMap) (t : String)
    (h : lookupS st uid = some ⟨.user_details, d⟩) (hu : hasK d "username" = false) :
    handleMessage f p st uid t =
      ⟨[.reply askDays []],
       setS st uid ⟨.user_details, setK d "username" (.str (pyStrip t))⟩, [], none⟩ := by
  rw [handleMessage, h]
  simp [hu]

/-- The days step of `user_details` on invalid (nonblank, non-integer)
input: retry prompt, store untouched. -/
theorem hmUDDaysRetry (f : FetchCall → Except PyExc String)
    (p : String → Option Json) (st : Store) (uid : Nat) (d : DataMap) (t : String)
    (h : lookupS st uid = some ⟨.user_details, d⟩) (hu : hasK d "username" = true)
    (hd : hasK d "days" = false) (hne : pyStrip t ≠ "")
    (hbad : pyInt (pyStrip t) = none) :
    handleMessage f p st uid t = ⟨[.reply askDaysRetry []], st, [], none⟩ := by
  rw [handleMessage, h]
  simp [hu, hd, hne, hbad]

/-- The days step of `user_details` on valid input (blank means the
default 1): sets days and dispatches. -/
theorem hmUDDaysDispatch (f : FetchCall → Except PyExc String)
    (p : String → Option Json) (st : Store) (uid : Nat) (d : DataMap) (t : String)
    (m : Int) (h : lookupS st uid = some ⟨.user_details, d⟩)
    (hu : hasK d "username" = true) (hd : hasK d "days" = false)
    (hm : (pyStrip t = "" ∧ m = 1) ∨ pyInt (pyStrip t) = some m) :
    handleMessage f p st uid t =
      userDetailsDispatch f p (setS st uid ⟨.user_details, setK d "days" (.int m)⟩) uid
        (.accountDetails (dget d "username") (.int m)) := by
  have hdg : dget (setK d "days" (.int m)) "username" = dget d "username" :=
    dget_setK_ne d "days" "username" (.int m) (by decide)
  have hdd : dget (setK d "days" (.int m)) "days" = .int m :=
    dget_setK_self d "days" (.int m)
  rw [handleMessage, h]
  rcases hm with ⟨hb, rfl⟩ | hp
  · simp [hu, hd, hb, hdg, hdd]
  · have hne : pyStrip t ≠ "" := by
      intro he
      rw [he] at hp
      simp [pyInt, pyStripL, udigitsOk] at hp
    simp [hu, hd, hne, hp, hdg, hdd]

/-- The first text field of the three list kinds. -/
theorem hmUTUsername (f : FetchCall → Except PyExc String)
    (p : String → Option Json) (st : Store) (uid : Nat) (d : DataMap) (t : String)
    (h : lookupS st uid = some ⟨.user_top, d⟩) (hu : hasK d "username" = false) :
    handleMessage f p st uid t =
      ⟨[.reply askKeywords ["no_keywords"]],
       setS st uid ⟨.user_top, setK d "username" (.str (pyStrip t))⟩, [], none⟩ := by
  rw [handleMessage, h]
  simp [hu]

/-- The keywords step of `user_top`. -/
theorem hmUTKeywords (f : FetchCall → Except PyExc String)
    (p : String → Option Json) (st : Store) (uid : Nat) (d : DataMap) (t : String)
    (h : lookupS st uid = some ⟨.user_top, d⟩) (hu : hasK d "username" = true)
    (hk : hasK d "keywords" = false) :
    handleMessage f p st uid t =
      ⟨[.reply askLimit limitButtons],
       setS st uid ⟨.user_top, setK d "keywords" (.str (pyStrip t))⟩, [], none⟩ := by
  rw [handleMessage, h]
  simp [hu, hk]

/-- The limit step of `user_top` on valid input (blank means 30). -/
theorem hmUTLimitOk (f : FetchCall → Except PyExc String)
    (p : String → Option Json) (st : Store) (uid : Nat) (d : DataMap) (t : String)
    (n : Int) (h : lookupS st uid = some ⟨.user_top, d⟩)
    (hu : hasK d "username" = true) (hk : hasK d "keywords" = true)
    (hl : hasK d "limit" = false)
    (hn : (pyStrip t = "" ∧ n = 30) ∨ pyInt (pyStrip t) = some n) :
    handleMessage f p st uid t =
      ⟨[.reply askLinks linkButtons],
       setS st uid ⟨.user_top, setK d "limit" (.int n)⟩, [], none⟩ := by
  rw [handleMessage, h]
  rcases hn with ⟨hb, rfl⟩ | hp
  · simp [hu, hk, hl, hb]
  · have hne : pyStrip t ≠ "" := by
      intro he
      rw [he] at hp
      simp [pyInt, pyStripL, udigitsOk] at hp
    simp [hu, hk, hl, hne, hp]

/-- The limit step of `user_top` on non-integer input: the `ValueError`
escapes to the outer handler, which answers with the raw exception text
and destroys the session. -/
theorem hmUTLimitBad (f : FetchCall → Except PyExc String)
    (p : String → Option Json) (st : Store) (uid : Nat) (d : DataMap) (t : String)
    (h : lookupS st uid = some ⟨.user_top, d⟩)
    (hu : hasK d "username" = true) (hk : hasK d "keywords" = true)
    (hl : hasK d "limit" = false) (hne : pyStrip t ≠ "")
    (hbad : pyInt (pyStrip t) = none) :
    handleMessage f p st uid t =
      ⟨[.reply ("An error occurred: " ++ intErrMsg (pyStrip t)) []],
       eraseS st uid, [], none⟩ := by
  rw [handleMessage, h]
  simp [hu, hk, hl, hne, hbad]

/-- The first text field of `subreddit_hot`. -/
theorem hmSHSub (f : FetchCall → Except PyExc String)
    (p : String → Option Json) (st : Store) (uid : Nat) (d : DataMap) (t : String)
    (h : lookupS st uid = some ⟨.subreddit_hot, d⟩) (hu : hasK d "subreddit" = false) :
    handleMessage f p st uid t =
      ⟨[.reply askKeywords ["no_keywords"]],
       setS st uid ⟨.subreddit_hot, setK d "subreddit" (.str (pyStrip t))⟩, [], none⟩ := by
  rw [handleMessage, h]
  simp [hu]

/-- The keywords step of `subreddit_hot`. -/
theorem hmSHKeywords (f : FetchCall → Except PyExc String)
    (p : String → Option Json) (st : Store) (uid : Nat) (d : DataMap) (t : String)
    (h : lookupS st uid = some ⟨.subreddit_hot, d⟩) (hu : hasK d "subreddit" = true)
    (hk : hasK d "keywords" = false) :
    handleMessage f p st uid t =
      ⟨[.reply askLimit limitButtons],
       setS st uid ⟨.subreddit_hot, setK d "keywords" (.str (pyStrip t))⟩, [], none⟩ := by
  rw [handleMessage, h]
  simp [hu, hk]

/-- The limit step of `subreddit_hot` on valid input (blank means 20). -/
theorem hmSHLimitOk (f : FetchCall → Except PyExc String)
    (p : String → Option Json) (st : Store) (uid : Nat) (d : DataMap) (t : String)
    (n : Int) (h : lookupS st uid = some ⟨.subreddit_hot, d⟩)
    (hu : hasK d "subreddit" = true) (hk : hasK d "keywords" = true)
    (hl : hasK d "limit" = false)
    (hn : (pyStrip t = "" ∧ n = 20) ∨ pyInt (pyStrip t) = some n) :
    handleMessage f p st uid t =
      ⟨[.reply askLinks linkButtons],
       setS st uid ⟨.subreddit_hot, setK d "limit" (.int n)⟩, [], none⟩ := by
  rw [handleMessage, h]
  rcases hn with ⟨hb, rfl⟩ | hp
  · simp [hu, hk, hl, hb]
  · have hne : pyStrip t ≠ "" := by
      intro he
      rw [he] at hp
      simp [pyInt, pyStripL, udigitsOk] at hp
    simp [hu, hk, hl, hne, hp]

/-- The limit step of `subreddit_hot` on non-integer input: the
`ValueError` escapes to the outer handler, which answers with the raw
exception text and destroys the session. -/
theorem hmSHLimitBad (f : FetchCall → Except PyExc String)
    (p : String → Option Json) (st : Store) (uid : Nat) (d : DataMap) (t : String)
    (h : lookupS st uid = some ⟨.subreddit_hot, d⟩)
    (hu : hasK d "subreddit" = true) (hk : hasK d "keywords" = true)
    (hl : hasK d "limit" = false) (hne : pyStrip t ≠ "")
    (hbad : pyInt (pyStrip t) = none) :
    handleMessage f p st uid t =
      ⟨[.reply ("An error occurred: " ++ intErrMsg (pyStrip t)) []],
       eraseS st uid, [], none⟩ := by
  rw [handleMessage, h]
  simp [hu, hk, hl, hne, hbad]

/-- The first text field of `subreddit_top`. -/
theorem hmSTSub (f : FetchCall → Except PyExc String)
    (p : String → Option Json) (st : Store) (uid : Nat) (d : DataMap) (t : String)
    (h : lookupS st uid = some ⟨.subreddit_top, d⟩) (hu : hasK d "subreddit" = false) :
    handleMessage f p st uid t =
      ⟨[.reply askKeywords ["no_keywords"]],
       setS st uid ⟨.subreddit_top, setK d "subreddit" (.str (pyStrip t))⟩, [], none⟩ := by
  rw [handleMessage, h]
  simp [hu]

/-- The keywords step of `subreddit_top`. -/
theorem hmSTKeywords (f : FetchCall → Except PyExc String)
    (p : String → Option Json) (st : Store) (uid : Nat) (d : DataMap) (t : String)
    (h : lookupS st uid = some ⟨.subreddit_top, d⟩) (hu : hasK d "subreddit" = true)
    (hk : hasK d "keywords" = false) :
    handleMessage f p st uid t =
      ⟨[.reply askLimit limitButtons],
       setS st uid ⟨.subreddit_top, setK d "keywords" (.str (pyStrip t))⟩, [], none⟩ := by
  rw [handleMessage, h]
  simp [hu, hk]

/-- The limit step of `subreddit_top` on valid input (blank means 20). -/
theorem hmSTLimitOk (f : FetchCall → Except PyExc String)
    (p : String → Option Json) (st : Store) (uid : Nat) (d : DataMap) (t : String)
    (n : Int) (h : lookupS st uid = some ⟨.subreddit_top, d⟩)
    (hu : hasK d "subreddit" = true) (hk : hasK d "keywords" = true)
    (hl : hasK d "limit" = false)
    (hn : (pyStrip t = "" ∧ n = 20) ∨ pyInt (pyStrip t) = some n) :
    handleMessage f p st uid t =
      ⟨[.reply askLinks linkButtons],
       setS st uid ⟨.subreddit_top, setK d "limit" (.int n)⟩, [], none⟩ := by
  rw [handleMessage, h]
  rcases hn with ⟨hb, rfl⟩ | hp
  · simp [hu, hk, hl, hb]
  · have hne : pyStrip t ≠ "" := by
      intro he
      rw [he] at hp
      simp [pyInt, pyStripL, udigitsOk] at hp
    simp [hu, hk, hl, hne, hp]

/-- The limit step of `subreddit_top` on non-integer input: raw error
text and session destruction, as for the other limit fields. -/
theorem hmSTLimitBad (f : FetchCall → Except PyExc String)
    (p : String → Option Json) (st : Store) (uid : Nat) (d : DataMap) (t : String)
    (h : lookupS st uid = some ⟨.subreddit_top, d⟩)
    (hu : hasK d "subreddit" = true) (hk : hasK d "keywords" = true)
    (hl : hasK d "limit" = false) (hne : pyStrip t ≠ "")
    (hbad : pyInt (pyStrip t) = none) :
    handleMessage f p st uid t =
      ⟨[.reply ("An error occurred: " ++ intErrMsg (pyStrip t)) []],
       eraseS st uid, [], none⟩ := by
  rw [handleMessage, h]
  simp [hu, hk, hl, hne, hbad]

theorem escSeqOk_escML (l : List Char) : escSeqOk (escML l) = true := by
  induction l with
  | nil => simp [escML, escSeqOk]
  | cons c rest ih =>
    cases hs : isSpecialV2 c with
    | true =>
      simp only [escML, hs, if_true, List.cons_append, List.nil_append]
      simp [escSeqOk, ih]
    | false =>
      have hnb : (c == '\\') = false := by
        rcases Bool.eq_false_or_eq_true (c == '\\') with h | h
        · exfalso
          have hc : c = '\\' := by simpa using h
          subst hc
          simp [isSpecialV2, escapeCharsV2] at hs
        · exact h
      simp only [escML, hs, if_false, List.cons_append, List.nil_append]
      rw [escSeqOk.eq_def]
      simp [hnb, hs, ih]


theorem truncMsg_of_le (msg : List Char) (h : msg.length ≤ 4096) :
    truncMsg msg = msg := by
  rw [truncMsg, if_neg (by omega)]

/-! ### Claims -/

/-- C7.  A free-text submission from a user with no active session gets
the "use one of the commands first" hint, makes no fetch call, and leaves
the conversation store exactly as it was. -/
theorem c7_no_session_hint_store_unchanged (f : FetchCall → Except PyExc String)
    (p : String → Option Json) (st : Store) (uid : Nat) (t : String)
    (h : lookupS st uid = none) :
    handleMessage f p st uid t = ⟨[.reply noSessionHint []], st, [], none⟩ := by
  rw [handleMessage, h]

theorem c7_witness :
    lookupS [] 7 = none ∧
    handleMessage exFetch exParse [] 7 "hello" =
      ⟨[.reply noSessionHint []], [], [], none⟩ :=
  ⟨rfl, c7_no_session_hint_store_unchanged exFetch exParse [] 7 "hello" rfl⟩

/-- C10 counterexample.  The formatter is not total on parseable input:
`json.loads` can return a JSON array, and `data.get("results")` then
raises `AttributeError`, which nothing in `_format_json_as_text`
catches. -/
theorem c10_cex_formatter_raises :
    formatParsed (.arr []) true =
      .error ⟨"AttributeError", squote ++ "list" ++ squote ++
        " object has no attribute " ++ squote ++ "get" ++ squote⟩ := by
  decide

/-- C10 amended.  Input that fails to parse as JSON is answered with the
raw input escaped for MarkdownV2, without raising; but totality stops
there — parseable input of unexpected shape can raise (see the
counterexample). -/
theorem c10_amended_parse_failure_returns_escaped
    (parse : String → Option Json) (s : String) (il : Bool)
    (h : parse s = none) :
    formatJsonAsText parse s il = .ok (escapeMarkdownV2 s) := by
  rw [formatJsonAsText, h]

theorem c10_witness :
    exParse "not json" = none ∧
    formatJsonAsText exParse "not json" true = .ok (escapeMarkdownV2 "not json") :=
  ⟨rfl, c10_amended_parse_failure_returns_escaped exParse "not json" true rfl⟩

/-- C4 counterexample.  A successful fetch echoing a username and
carrying an empty result list does not produce a "no results" notice:
the header makes the joined text nonempty, so the notice branch is never
reached and the user gets a header-only message. -/
theorem c4_cex_empty_results_with_header_no_notice :
    formatParsed (.obj [("username", .str "alice"), ("results", .arr [])]) true =
      .ok (mojiUser ++ " alice\n") ∧
    strHasSub "No results" (mojiUser ++ " alice\n") = false := by
  constructor
  · decide
  · decide

/-- C4 amended.  On an empty result sequence (and an integer or absent
echoed limit, as every successful fetch produces), the formatter returns
the single no-results notice block exactly when the header-part list is
empty; when any header part is present it returns the header-only text
with no notice appended.  The header-part list is empty precisely when
none of the three echoes fires: a username echo, a subreddit echo, and a
nonempty (truthy) keywords echo each contribute a part. -/
theorem c4_amended_notice_only_without_header
    (fields : List (String × Json)) (il : Bool) (hp : List String)
    (hres : jget fields "results" = some (.arr []))
    (hhp : headerParts fields = .ok hp)
    (hlim : jget fields "limit" = none ∨
      ∃ nv : Int, jget fields "limit" = some (.num nv)) :
    (hp = [] → formatParsed (.obj fields) il = .ok noResultsText) ∧
    (hp ≠ [] → formatParsed (.obj fields) il =
      .ok (pyTake 4000 (joinStr " | " hp ++ "\n"))) ∧
    headerParts [] = .ok [] ∧
    (∀ s : String, headerParts [("username", .str s)] =
      .ok [mojiUser ++ " " ++ escapeMarkdownV2 s]) ∧
    (∀ s : String, headerParts [("subreddit", .str s)] =
      .ok [mojiPhone ++ " r/" ++ escapeMarkdownV2 s]) ∧
    (∀ s : String, s.isEmpty = false → headerParts [("keywords", .str s)] =
      .ok [mojiSearch ++ " " ++ squote ++ escapeMarkdownV2 s ++ squote]) := by
  have hslice : sliceByLimit [] ((jget fields "limit").getD (.num 10)) = .ok [] := by
    rcases hlim with h0 | ⟨nv, h0⟩ <;> rw [h0] <;> simp [sliceByLimit, pySliceTo]
  refine ⟨?_, ?_, rfl, fun s => rfl, fun s => rfl, ?_⟩
  · rintro rfl
    rw [formatParsed, hres]
    have hemp : ("" : String).isEmpty = true := rfl
    simp [hhp, hslice, Bind.bind, Except.bind, itemsLoop, joinStr, hemp]
  · intro hne
    obtain ⟨h0, hr, rfl⟩ : ∃ h0 hr, hp = h0 :: hr := by
      cases hp with
      | nil => exact absurd rfl hne
      | cons a b => exact ⟨a, b, rfl⟩
    rw [formatParsed, hres]
    simp only [hhp, hslice, Bind.bind, Except.bind, itemsLoop, List.isEmpty_cons,
      Bool.false_eq_true, if_false, List.append_nil, joinStr, String.append_empty]
    have hneE : ((joinStr " | " (h0 :: hr) ++ "\n").isEmpty) = false := by
      rw [Bool.eq_false_iff]
      intro hE
      have he := (String.isEmpty_iff _).mp hE
      have hd := congrArg String.data he
      simp at hd
    simp [hneE]
  · intro s hs
    simp [headerParts, jget, truthy, hs, escStr, Bind.bind, Except.bind,
      Pure.pure, Except.pure]

theorem c4_witness :
    jget [("username", Json.str "alice"), ("results", Json.arr [])] "results" =
      some (.arr []) ∧
    headerParts [("username", Json.str "alice"), ("results", Json.arr [])] =
      .ok [mojiUser ++ " alice"] ∧
    formatParsed (.obj [("username", Json.str "alice"), ("results", Json.arr [])])
        true =
      .ok (pyTake 4000 (joinStr " | " [mojiUser ++ " alice"] ++ "\n")) :=
  ⟨rfl, by decide,
   (c4_amended_notice_only_without_header
      [("username", Json.str "alice"), ("results", Json.arr [])] true
      [mojiUser ++ " alice"] rfl (by decide)
      (Or.inl rfl)).2.1 (by decide)⟩

/-- C2 counterexample.  A `user_top` session whose next unfilled field is
the integer field `limit`: non-integer input is not re-prompted — the
`ValueError` of `int` reaches the outer handler, which emits an error
message and destroys the session. -/
theorem c2_cex_limit_nonint_destroys_session :
    handleMessage exFetch exParse
      [(7, ⟨.user_top, [("username", .str "alice"), ("keywords", .str "")]⟩)]
      7 "abc" =
      ⟨[.reply ("An error occurred: invalid literal for int() with base 10: " ++
          squote ++ "abc" ++ squote) []],
       [], [], none⟩ := by
  decide

/-- C2 amended.  Blank input fills an integer field with its default for
every integer field (days default 1, user-top limit default 30,
subreddit limits default 20), but the validation-retry behaviour holds
only for the `days` field of `user_details`: there non-integer input
re-prompts (with the retry message) and leaves the store unchanged,
while for the `limit` fields of all three list kinds non-integer input
raises, is answered with the raw exception text, and destroys the
session. -/
theorem c2_amended_integer_field_behaviour (f : FetchCall → Except PyExc String)
    (p : String → Option Json) (st : Store) (uid : Nat) (d : DataMap) (t : String) :
    (lookupS st uid = some ⟨.user_details, d⟩ → hasK d "username" = true →
      hasK d "days" = false → pyStrip t ≠ "" → pyInt (pyStrip t) = none →
      handleMessage f p st uid t = ⟨[.reply askDaysRetry []], st, [], none⟩) ∧
    (lookupS st uid = some ⟨.user_details, d⟩ → hasK d "username" = true →
      hasK d "days" = false → pyStrip t = "" →
      (handleMessage f p st uid t).fetchCalls =
        [.accountDetails (dget d "username") (.int 1)]) ∧
    (lookupS st uid = some ⟨.user_top, d⟩ → hasK d "username" = true →
      hasK d "keywords" = true → hasK d "limit" = false → pyStrip t = "" →
      handleMessage f p st uid t =
        ⟨[.reply askLinks linkButtons],
         setS st uid ⟨.user_top, setK d "limit" (.int 30)⟩, [], none⟩) ∧
    (lookupS st uid = some ⟨.user_top, d⟩ → hasK d "username" = true →
      hasK d "keywords" = true → hasK d "limit" = false → pyStrip t ≠ "" →
      pyInt (pyStrip t) = none →
      handleMessage f p st uid t =
        ⟨[.reply ("An error occurred: " ++ intErrMsg (pyStrip t)) []],
         eraseS st uid, [], none⟩) ∧
    (lookupS st uid = some ⟨.subreddit_hot, d⟩ → hasK d "subreddit" = true →
      hasK d "keywords" = true → hasK d "limit" = false → pyStrip t = "" →
      handleMessage f p st uid t =
        ⟨[.reply askLinks linkButtons],
         setS st uid ⟨.subreddit_hot, setK d "limit" (.int 20)⟩, [], none⟩) ∧
    (lookupS st uid = some ⟨.subreddit_hot, d⟩ → hasK d "subreddit" = true →
      hasK d "keywords" = true → hasK d "limit" = false → pyStrip t ≠ "" →
      pyInt (pyStrip t) = none →
      handleMessage f p st uid t =
        ⟨[.reply ("An error occurred: " ++ intErrMsg (pyStrip t)) []],
         eraseS st uid, [], none⟩) ∧
    (lookupS st uid = some ⟨.subreddit_top, d⟩ → hasK d "subreddit" = true →
      hasK d "keywords" = true → hasK d "limit" = false → pyStrip t = "" →
      handleMessage f p st uid t =
        ⟨[.reply askLinks linkButtons],
         setS st uid ⟨.subreddit_top, setK d "limit" (.int 20)⟩, [], none⟩) ∧
    (lookupS st uid = some ⟨.subreddit_top, d⟩ → hasK d "subreddit" = true →
      hasK d "keywords" = true → hasK d "limit" = false → pyStrip t ≠ "" →
      pyInt (pyStrip t) = none →
      handleMessage f p st uid t =
        ⟨[.reply ("An error occurred: " ++ intErrMsg (pyStrip t)) []],
         eraseS st uid, [], none⟩) := by
  refine ⟨?_, ?_, ?_, ?_, ?_, ?_, ?_, ?_⟩
  · intro h hu hd hne hbad
    exact hmUDDaysRetry f p st uid d t h hu hd hne hbad
  · intro h hu hd hb
    rw [hmUDDaysDispatch f p st uid d t 1 h hu hd (Or.inl ⟨hb, rfl⟩)]
    exact userDetailsDispatch_fetchCalls f p _ uid _
  · intro h hu hk hl hb
    exact hmUTLimitOk f p st uid d t 30 h hu hk hl (Or.inl ⟨hb, rfl⟩)
  · intro h hu hk hl hne hbad
    exact hmUTLimitBad f p st uid d t h hu hk hl hne hbad
  · intro h hu hk hl hb
    exact hmSHLimitOk f p st uid d t 20 h hu hk hl (Or.inl ⟨hb, rfl⟩)
  · intro h hu hk hl hne hbad
    exact hmSHLimitBad f p st uid d t h hu hk hl hne hbad
  · intro h hu hk hl hb
    exact hmSTLimitOk f p st uid d t 20 h hu hk hl (Or.inl ⟨hb, rfl⟩)
  · intro h hu hk hl hne hbad
    exact hmSTLimitBad f p st uid d t h hu hk hl hne hbad

theorem c2_witness :
    lookupS [(7, ⟨Command.user_details, [("username", Value.str "bob")]⟩)] 7 =
      some ⟨Command.user_details, [("username", Value.str "bob")]⟩ ∧
    handleMessage exFetch exParse
      [(7, ⟨Command.user_details, [("username", Value.str "bob")]⟩)] 7 "xyz" =
      ⟨[.reply askDaysRetry []],
       [(7, ⟨Command.user_details, [("username", Value.str "bob")]⟩)], [], none⟩ :=
  ⟨by decide,
   (c2_amended_integer_field_behaviour exFetch exParse
      [(7, ⟨Command.user_details, [("username", Value.str "bob")]⟩)] 7
      [("username", Value.str "bob")] "xyz").1
     (by decide) (by decide) (by decide) (by decide) (by decide)⟩


/-- C3 counterexample.  The chunker does not pack greedily under the
length cap: two 3000-character blocks join to 6002 characters, which the
specification-worded greedy packer splits into two messages, while
`_send_split_messages` keeps them in one count-based batch and truncates
it — one message, content lost. -/
theorem c3_cex_not_length_greedy :
    (chunkBlocks [List.replicate 3000 'a', List.replicate 3000 'b']).length = 1 ∧
    (specGreedyChunk 4096 20 [List.replicate 3000 'a', List.replicate 3000 'b']).length = 2 := by
  constructor
  · have h20 : chunksOf 20 [List.replicate 3000 'a', List.replicate 3000 'b'] =
        [[List.replicate 3000 'a', List.replicate 3000 'b']] := rfl
    rw [chunkBlocks, h20]
    rfl
  · have s1 : specGreedyStep 4096 20 ([], []) (List.replicate 3000 'a') =
        ([], [List.replicate 3000 'a']) := rfl
    have s2 : specGreedyStep 4096 20 ([], [List.replicate 3000 'a'])
        (List.replicate 3000 'b') =
        ([[List.replicate 3000 'a']], [List.replicate 3000 'b']) := by
      rw [specGreedyStep]
      have hj : joinSep sepNlNl ([List.replicate 3000 'a'] ++ [List.replicate 3000 'b']) =
          List.replicate 3000 'a' ++ sepNlNl ++ List.replicate 3000 'b' := rfl
      have hl : (List.replicate 3000 'a' ++ sepNlNl ++ List.replicate 3000 'b').length =
          6002 := by
        simp only [List.length_append, List.length_replicate, sepNlNl,
          List.length_cons, List.length_nil]
      rw [hj, hl]
      norm_num
    rw [specGreedyChunk, List.foldl_cons, s1, List.foldl_cons, s2, List.foldl_nil]
    norm_num

/-- C3 amended.  The chunker batches by block count alone (20 whole
blocks per message); a batch whose joined text would exceed the length
cap is truncated (losing content) rather than split into a further
message.  When every 20-block batch joins within the cap, the output is
exactly the joined batches: every message holds at most 20 whole
consecutive blocks and no block is split or lost. -/
theorem c3_amended_count_batching (blocks : List (List Char))
    (h : ∀ b ∈ chunksOf 20 blocks, (joinSep sepNlNl b).length ≤ 4096) :
    chunkBlocks blocks = (chunksOf 20 blocks).map (joinSep sepNlNl) ∧
    (chunksOf 20 blocks).flatten = blocks ∧
    (∀ b ∈ chunksOf 20 blocks, b.length ≤ 20) := by
  refine ⟨?_, chunksOf_join 20 (by norm_num) blocks, chunksOf_mem_length_le 20 blocks⟩
  rw [chunkBlocks]
  exact List.map_congr_left (fun b hb => truncMsg_of_le _ (h b hb))

theorem c3_witness :
    (∀ b ∈ chunksOf 20 [['a'], ['b']], (joinSep sepNlNl b).length ≤ 4096) ∧
    (chunkBlocks [['a'], ['b']] = (chunksOf 20 [['a'], ['b']]).map (joinSep sepNlNl) ∧
     (chunksOf 20 [['a'], ['b']]).flatten = [['a'], ['b']] ∧
     (∀ b ∈ chunksOf 20 [['a'], ['b']], b.length ≤ 20)) :=
  ⟨by decide, c3_amended_count_batching [['a'], ['b']] (by decide)⟩

/-- C8.  Chunking preserves the input block order (flattening the batches
gives back the block list), and off the lossy truncation path — that is,
when every 20-block batch joins within the length cap — concatenating the
output messages with the block separator reconstructs exactly the
original blocks joined with that separator. -/
theorem c8_order_stable_and_reconstructs (blocks : List (List Char))
    (h : ∀ b ∈ chunksOf 20 blocks, (joinSep sepNlNl b).length ≤ 4096) :
    (chunksOf 20 blocks).flatten = blocks ∧
    joinSep sepNlNl (chunkBlocks blocks) = joinSep sepNlNl blocks := by
  refine ⟨chunksOf_join 20 (by norm_num) blocks, ?_⟩
  have hmap : chunkBlocks blocks = (chunksOf 20 blocks).map (joinSep sepNlNl) := by
    rw [chunkBlocks]
    exact List.map_congr_left (fun b hb => truncMsg_of_le _ (h b hb))
  rw [hmap, joinSep_map_joinSep sepNlNl (chunksOf 20 blocks)
    (chunksOf_mem_ne_nil 20 (by norm_num) blocks),
    chunksOf_join 20 (by norm_num) blocks]

theorem c8_witness :
    (∀ b ∈ chunksOf 20 [['x'], ['y'], ['z']], (joinSep sepNlNl b).length ≤ 4096) ∧
    ((chunksOf 20 [['x'], ['y'], ['z']]).flatten = [['x'], ['y'], ['z']] ∧
     joinSep sepNlNl (chunkBlocks [['x'], ['y'], ['z']]) =
       joinSep sepNlNl [['x'], ['y'], ['z']]) :=
  ⟨by decide, c8_order_stable_and_reconstructs [['x'], ['y'], ['z']] (by decide)⟩

/-- C9 counterexample.  After start `user_top`, username `"alice"`, blank
keywords and limit `30`, no fetch has been made and the session is still
live: the engine asks a fourth, include-links question first, so the
scenario as stated does not dispatch. -/
theorem c9_cex_no_dispatch_after_limit :
    runEvents exFetch exParse 7 []
      [.cb "user_top", .msg "alice", .msg "", .msg "30"] =
      ⟨[(7, ⟨.user_top, [("username", .str "alice"), ("keywords", .str ""),
          ("limit", .int 30)]⟩)],
       [.edit askUsername [], .reply askKeywords ["no_keywords"],
        .reply askLimit limitButtons, .reply askLinks linkButtons],
       []⟩ := by
  decide

/-- C9 amended.  The UserTop scenario needs one more submission — the
include-links button — after which dispatch fires the fetch exactly once
with username `"alice"`, keywords `""` and limit `30`, and the session is
destroyed; and chunking 45 one-character blocks with the 20-blocks-per-
message cap yields exactly 3 messages of 20, 20 and 5 blocks in the
original order. -/
theorem c9_amended_scenario :
    (runEvents exFetch exParse 7 []
        [.cb "user_top", .msg "alice", .msg "", .msg "30",
         .cb "include_links_yes"]).fetchCalls =
      [.top30Captions (.str "alice") (.str "") (.int 30) false] ∧
    lookupS (runEvents exFetch exParse 7 []
        [.cb "user_top", .msg "alice", .msg "", .msg "30",
         .cb "include_links_yes"]).store 7 = none ∧
    (chunkBlocks (List.replicate 45 ['x'])).length = 3 ∧
    (chunksOf 20 (List.replicate 45 (['x'] : List Char))).map List.length =
      [20, 20, 5] ∧
    (chunksOf 20 (List.replicate 45 (['x'] : List Char))).flatten =
      List.replicate 45 ['x'] := by
  refine ⟨by decide, by decide, by decide, by decide, by decide⟩


/-- C5.  A session whose last collected field is filled dispatches: the
fetch collaborator is invoked exactly once with the assembled parameters,
and the session is removed from the store whether the fetch succeeds or
raises; a fetch failure is answered with one error message carrying the
failure description.  The key-presence hypotheses state the claim's own
premise that the earlier fields were filled; on the button path the
failure text is escaped, on the `user_details` path it is raw, the
`reddit_service` fetchers only raise `RuntimeError` (never `ValueError`),
and the success conclusion for `user_details` covers any formatted text.
In every case `fetchCalls` is a singleton: no retry. -/
theorem c5_dispatch_invokes_fetch_once_and_destroys_session
    (f : FetchCall → Except PyExc String) (p : String → Option Json)
    (st : Store) (uid : Nat) (d : DataMap) :
    (∀ b : Bool, lookupS st uid = some ⟨.user_top, d⟩ → hasK d "username" = true →
      (buttonCallback f p st uid
          (if b then "include_links_yes" else "include_links_no")).fetchCalls =
        [.top30Captions (dget d "username") (dgetD d "keywords" (.str ""))
          (dgetD d "limit" (.int 30)) false] ∧
      lookupS (buttonCallback f p st uid
          (if b then "include_links_yes" else "include_links_no")).store uid = none ∧
      (∀ e, f (.top30Captions (dget d "username") (dgetD d "keywords" (.str ""))
            (dgetD d "limit" (.int 30)) false) = .error e →
        (buttonCallback f p st uid
            (if b then "include_links_yes" else "include_links_no")).outs =
          [.reply ("Error: " ++ escapeMarkdownV2 e.msg) []])) ∧
    (∀ b : Bool, lookupS st uid = some ⟨.subreddit_hot, d⟩ →
      hasK d "subreddit" = true →
      (buttonCallback f p st uid
          (if b then "include_links_yes" else "include_links_no")).fetchCalls =
        [.top20Hot (dget d "subreddit") (dgetD d "keywords" (.str ""))
          (dgetD d "limit" (.int 20)) false] ∧
      lookupS (buttonCallback f p st uid
          (if b then "include_links_yes" else "include_links_no")).store uid = none ∧
      (∀ e, f (.top20Hot (dget d "subreddit") (dgetD d "keywords" (.str ""))
            (dgetD d "limit" (.int 20)) false) = .error e →
        (buttonCallback f p st uid
            (if b then "include_links_yes" else "include_links_no")).outs =
          [.reply ("Error: " ++ escapeMarkdownV2 e.msg) []])) ∧
    (∀ b : Bool, lookupS st uid = some ⟨.subreddit_top, d⟩ →
      hasK d "subreddit" = true →
      (buttonCallback f p st uid
          (if b then "include_links_yes" else "include_links_no")).fetchCalls =
        [.top20AllTime (dget d "subreddit") (dgetD d "keywords" (.str ""))
          (dgetD d "limit" (.int 20)) false] ∧
      lookupS (buttonCallback f p st uid
          (if b then "include_links_yes" else "include_links_no")).store uid = none ∧
      (∀ e, f (.top20AllTime (dget d "subreddit") (dgetD d "keywords" (.str ""))
            (dgetD d "limit" (.int 20)) false) = .error e →
        (buttonCallback f p st uid
            (if b then "include_links_yes" else "include_links_no")).outs =
          [.reply ("Error: " ++ escapeMarkdownV2 e.msg) []])) ∧
    (∀ (t : String) (m : Int), lookupS st uid = some ⟨.user_details, d⟩ →
      hasK d "username" = true → hasK d "days" = false →
      ((pyStrip t = "" ∧ m = 1) ∨ pyInt (pyStrip t) = some m) →
      (handleMessage f p st uid t).fetchCalls =
        [.accountDetails (dget d "username") (.int m)] ∧
      (∀ e, f (.accountDetails (dget d "username") (.int m)) = .error e →
        e.ty ≠ "ValueError" →
        (handleMessage f p st uid t).outs = [.reply ("Error: " ++ e.msg) []] ∧
        lookupS (handleMessage f p st uid t).store uid = none) ∧
      (∀ (j txt : String), f (.accountDetails (dget d "username") (.int m)) = .ok j →
        formatJsonAsText p j true = .ok txt →
        (handleMessage f p st uid t).outs =
          (sendSplitMessages txt).map (fun s => .reply s []) ∧
        lookupS (handleMessage f p st uid t).store uid = none)) := by
  refine ⟨?_, ?_, ?_, ?_⟩
  · intro b h hk
    have hb := btnLinksUserTop f p st uid d b h hk
    rw [dget_setK_ne d "include_links" "username" (.bool b) (by decide),
      dgetD_setK_ne d "include_links" "keywords" (.bool b) (.str "") (by decide),
      dgetD_setK_ne d "include_links" "limit" (.bool b) (.int 30) (by decide)] at hb
    refine ⟨?_, ?_, ?_⟩
    · rw [hb]
      exact dispatchResult_fetchCalls f p _ uid _ b
    · rw [hb]
      exact dispatchResult_lookup f p _ uid _ b
    · intro e hf
      rw [hb, dispatchResult_err f p _ uid _ b e hf]
  · intro b h hk
    have hb := btnLinksSubHot f p st uid d b h hk
    rw [dget_setK_ne d "include_links" "subreddit" (.bool b) (by decide),
      dgetD_setK_ne d "include_links" "keywords" (.bool b) (.str "") (by decide),
      dgetD_setK_ne d "include_links" "limit" (.bool b) (.int 20) (by decide)] at hb
    refine ⟨?_, ?_, ?_⟩
    · rw [hb]
      exact dispatchResult_fetchCalls f p _ uid _ b
    · rw [hb]
      exact dispatchResult_lookup f p _ uid _ b
    · intro e hf
      rw [hb, dispatchResult_err f p _ uid _ b e hf]
  · intro b h hk
    have hb := btnLinksSubTop f p st uid d b h hk
    rw [dget_setK_ne d "include_links" "subreddit" (.bool b) (by decide),
      dgetD_setK_ne d "include_links" "keywords" (.bool b) (.str "") (by decide),
      dgetD_setK_ne d "include_links" "limit" (.bool b) (.int 20) (by decide)] at hb
    refine ⟨?_, ?_, ?_⟩
    · rw [hb]
      exact dispatchResult_fetchCalls f p _ uid _ b
    · rw [hb]
      exact dispatchResult_lookup f p _ uid _ b
    · intro e hf
      rw [hb, dispatchResult_err f p _ uid _ b e hf]
  · intro t m h hu hd hm
    have hmsg := hmUDDaysDispatch f p st uid d t m h hu hd hm
    rw [hmsg]
    refine ⟨userDetailsDispatch_fetchCalls f p _ uid _, ?_, ?_⟩
    · intro e hf hty
      rw [userDetailsDispatch_err f p _ uid _ e hf hty]
      exact ⟨rfl, lookupS_eraseS_self _ uid⟩
    · intro j txt hf hfmt
      rw [userDetailsDispatch_ok f p _ uid _ j txt hf hfmt]
      exact ⟨rfl, lookupS_eraseS_self _ uid⟩

theorem c5_witness :
    lookupS [(7, ⟨Command.user_top, [("username", Value.str "u"),
        ("keywords", Value.str ""), ("limit", Value.int 30)]⟩)] 7 =
      some ⟨Command.user_top, [("username", Value.str "u"),
        ("keywords", Value.str ""), ("limit", Value.int 30)]⟩ ∧
    hasK [("username", Value.str "u"), ("keywords", Value.str ""),
      ("limit", Value.int 30)] "username" = true ∧
    (buttonCallback exFetch exParse
        [(7, ⟨Command.user_top, [("username", Value.str "u"),
          ("keywords", Value.str ""), ("limit", Value.int 30)]⟩)] 7
        "include_links_yes").fetchCalls =
      [.top30Captions (.str "u") (.str "") (.int 30) false] ∧
    lookupS (buttonCallback exFetch exParse
        [(7, ⟨Command.user_top, [("username", Value.str "u"),
          ("keywords", Value.str ""), ("limit", Value.int 30)]⟩)] 7
        "include_links_yes").store 7 = none ∧
    (buttonCallback exFetch exParse
        [(7, ⟨Command.user_top, [("username", Value.str "u"),
          ("keywords", Value.str ""), ("limit", Value.int 30)]⟩)] 7
        "include_links_yes").outs =
      [.reply ("Error: " ++ escapeMarkdownV2 "Reddit API error: boom") []] :=
  ⟨by decide, by decide,
   ((c5_dispatch_invokes_fetch_once_and_destroys_session exFetch exParse
      [(7, ⟨Command.user_top, [("username", Value.str "u"),
        ("keywords", Value.str ""), ("limit", Value.int 30)]⟩)] 7
      [("username", Value.str "u"), ("keywords", Value.str ""),
        ("limit", Value.int 30)]).1 true (by decide) (by decide)).1,
   ((c5_dispatch_invokes_fetch_once_and_destroys_session exFetch exParse
      [(7, ⟨Command.user_top, [("username", Value.str "u"),
        ("keywords", Value.str ""), ("limit", Value.int 30)]⟩)] 7
      [("username", Value.str "u"), ("keywords", Value.str ""),
        ("limit", Value.int 30)]).1 true (by decide) (by decide)).2.1,
   ((c5_dispatch_invokes_fetch_once_and_destroys_session exFetch exParse
      [(7, ⟨Command.user_top, [("username", Value.str "u"),
        ("keywords", Value.str ""), ("limit", Value.int 30)]⟩)] 7
      [("username", Value.str "u"), ("keywords", Value.str ""),
        ("limit", Value.int 30)]).1 true (by decide) (by decide)).2.2
     ⟨"RuntimeError", "Reddit API error: boom"⟩ rfl⟩

/-- C6 counterexample.  The `handle_message` error path embeds
user-supplied text unescaped: submitting `"_1_"` for a limit field puts
the raw text (underscores included) into the outbound message instead of
its MarkdownV2-escaped form. -/
theorem c6_cex_error_reply_unescaped :
    (handleMessage exFetch exParse
        [(7, ⟨.user_top, [("username", .str "u"), ("keywords", .str "")]⟩)]
        7 "_1_").outs =
      [.reply ("An error occurred: invalid literal for int() with base 10: " ++
        squote ++ "_1_" ++ squote) []] ∧
    strHasSub "_1_" ("An error occurred: invalid literal for int() with base 10: " ++
      squote ++ "_1_" ++ squote) = true ∧
    escapeMarkdownV2 "_1_" = "\\_1\\_" ∧
    strHasSub "\\_1\\_" ("An error occurred: invalid literal for int() with base 10: " ++
      squote ++ "_1_" ++ squote) = false := by
  refine ⟨by decide, by decide, by decide, by decide⟩

/-- C6 amended.  Titles, usernames, subreddit names (both the header echo
and the per-item field) and keyword strings are escaped for MarkdownV2
before being embedded in the formatted output (and MarkdownV2 escaping
always yields safely escaped text), and the button-path fetch-failure
reply escapes the failure text; but both `handle_message` error replies —
the `user_details` fetch-failure reply and the outer-handler reply —
embed the exception text, which carries user or upstream input,
unescaped. -/
theorem c6_amended_escaping_boundaries :
    (∀ s : String, escSeqOk (escapeMarkdownV2 s).toList = true) ∧
    (∀ t : String, headerParts [("username", Json.str t)] =
      .ok [mojiUser ++ " " ++ escapeMarkdownV2 t]) ∧
    (∀ t : String, itemLines false 1 (.obj [("title", .str t)]) =
      .ok ["*1. " ++ escapeMarkdownV2 t ++ "*",
           mojiChart ++ " 0 upvotes | r/unknown", ""]) ∧
    (∀ (f : FetchCall → Except PyExc String) (p : String → Option Json)
        (st' : Store) (uid : Nat) (call : FetchCall) (il : Bool) (e : PyExc),
      f call = .error e →
      (dispatchResult f p st' uid call il).outs =
        [.reply ("Error: " ++ escapeMarkdownV2 e.msg) []]) ∧
    (∀ (f : FetchCall → Except PyExc String) (p : String → Option Json)
        (st : Store) (uid : Nat) (d : DataMap) (t : String),
      lookupS st uid = some ⟨.user_top, d⟩ → hasK d "username" = true →
      hasK d "keywords" = true → hasK d "limit" = false → pyStrip t ≠ "" →
      pyInt (pyStrip t) = none →
      (handleMessage f p st uid t).outs =
        [.reply ("An error occurred: " ++ intErrMsg (pyStrip t)) []]) ∧
    (∀ s : String, headerParts [("subreddit", Json.str s)] =
      .ok [mojiPhone ++ " r/" ++ escapeMarkdownV2 s]) ∧
    (∀ s : String, s.isEmpty = false → headerParts [("keywords", Json.str s)] =
      .ok [mojiSearch ++ " " ++ squote ++ escapeMarkdownV2 s ++ squote]) ∧
    (∀ t s : String, itemLines false 1
        (.obj [("title", .str t), ("subreddit", .str s)]) =
      .ok ["*1. " ++ escapeMarkdownV2 t ++ "*",
           mojiChart ++ " 0 upvotes | r/" ++ escapeMarkdownV2 s, ""]) ∧
    (∀ (f : FetchCall → Except PyExc String) (p : String → Option Json)
        (st : Store) (uid : Nat) (d : DataMap) (t : String) (m : Int) (e : PyExc),
      lookupS st uid = some ⟨.user_details, d⟩ → hasK d "username" = true →
      hasK d "days" = false →
      ((pyStrip t = "" ∧ m = 1) ∨ pyInt (pyStrip t) = some m) →
      f (.accountDetails (dget d "username") (.int m)) = .error e →
      e.ty ≠ "ValueError" →
      (handleMessage f p st uid t).outs = [.reply ("Error: " ++ e.msg) []]) := by
  refine ⟨?_, ?_, ?_, ?_, ?_, ?_, ?_, ?_, ?_⟩
  · intro s
    exact escSeqOk_escML s.toList
  · intro t
    rfl
  · intro t
    rfl
  · intro f p st' uid call il e hf
    rw [dispatchResult_err f p st' uid call il e hf]
  · intro f p st uid d t h hu hk hl hne hbad
    rw [hmUTLimitBad f p st uid d t h hu hk hl hne hbad]
  · intro s
    rfl
  · intro s hs
    simp [headerParts, jget, truthy, hs, escStr, Bind.bind, Except.bind,
      Pure.pure, Except.pure]
  · intro t s
    rfl
  · intro f p st uid d t m e h hu hd hm hf hty
    rw [hmUDDaysDispatch f p st uid d t m h hu hd hm,
      userDetailsDispatch_err f p _ uid _ e hf hty]

theorem c6_witness :
    exFetch (.accountDetails (Value.str "u") (Value.int 1)) =
      .error ⟨"RuntimeError", "Reddit API error: boom"⟩ ∧
    (dispatchResult exFetch exParse [] 7
        (.accountDetails (Value.str "u") (Value.int 1)) true).outs =
      [.reply ("Error: " ++ escapeMarkdownV2 "Reddit API error: boom") []] :=
  ⟨rfl,
   c6_amended_escaping_boundaries.2.2.2.1 exFetch exParse [] 7
     (.accountDetails (Value.str "u") (Value.int 1)) true
     ⟨"RuntimeError", "Reddit API error: boom"⟩ rfl⟩


/-- C1.  For every query kind, starting a dialogue and submitting one
valid input per field, in order, asks each field's prompt exactly once in
declaration order, grows `collected` by exactly that field at each step
(insertion order = field order), and triggers the fetch dispatch exactly
once with every collected value; no prompt is repeated and no field
skipped.  (`user_details` collects username and days and dispatches on
the days message; the three list kinds collect username/subreddit,
keywords and limit by text and the include-links field by button, and
dispatch on that button.) -/
theorem c1_happy_path_fills_fields_in_order_dispatches_once
    (f : FetchCall → Except PyExc String) (p : String → Option Json)
    (uid : Nat) (st0 : Store) (u k l t : String) (b : Bool) (m n q : Int)
    (hm : (pyStrip t = "" ∧ m = 1) ∨ pyInt (pyStrip t) = some m)
    (hn : (pyStrip l = "" ∧ n = 30) ∨ pyInt (pyStrip l) = some n)
    (hq : (pyStrip l = "" ∧ q = 20) ∨ pyInt (pyStrip l) = some q) :
    ((runEvents f p uid st0 [.cb "user_details"]).outs = [.edit askUsername []] ∧
     lookupS (runEvents f p uid st0 [.cb "user_details"]).store uid =
       some ⟨.user_details, []⟩ ∧
     (runEvents f p uid st0 [.cb "user_details", .msg u]).outs =
       [.edit askUsername [], .reply askDays []] ∧
     lookupS (runEvents f p uid st0 [.cb "user_details", .msg u]).store uid =
       some ⟨.user_details, [("username", .str (pyStrip u))]⟩ ∧
     (runEvents f p uid st0 [.cb "user_details", .msg u, .msg t]).fetchCalls =
       [.accountDetails (.str (pyStrip u)) (.int m)]) ∧
    ((runEvents f p uid st0 [.cb "user_top"]).outs = [.edit askUsername []] ∧
     lookupS (runEvents f p uid st0 [.cb "user_top"]).store uid =
       some ⟨.user_top, []⟩ ∧
     (runEvents f p uid st0 [.cb "user_top", .msg u]).outs =
       [.edit askUsername [], .reply askKeywords ["no_keywords"]] ∧
     lookupS (runEvents f p uid st0 [.cb "user_top", .msg u]).store uid =
       some ⟨.user_top, [("username", .str (pyStrip u))]⟩ ∧
     (runEvents f p uid st0 [.cb "user_top", .msg u, .msg k]).outs =
       [.edit askUsername [], .reply askKeywords ["no_keywords"],
        .reply askLimit limitButtons] ∧
     lookupS (runEvents f p uid st0 [.cb "user_top", .msg u, .msg k]).store uid =
       some ⟨.user_top, [("username", .str (pyStrip u)),
         ("keywords", .str (pyStrip k))]⟩ ∧
     (runEvents f p uid st0 [.cb "user_top", .msg u, .msg k, .msg l]).outs =
       [.edit askUsername [], .reply askKeywords ["no_keywords"],
        .reply askLimit limitButtons, .reply askLinks linkButtons] ∧
     lookupS (runEvents f p uid st0
         [.cb "user_top", .msg u, .msg k, .msg l]).store uid =
       some ⟨.user_top, [("username", .str (pyStrip u)),
         ("keywords", .str (pyStrip k)), ("limit", .int n)]⟩ ∧
     (runEvents f p uid st0 [.cb "user_top", .msg u, .msg k, .msg l,
         .cb (if b then "include_links_yes" else "include_links_no")]).fetchCalls =
       [.top30Captions (.str (pyStrip u)) (.str (pyStrip k)) (.int n) false] ∧
     lookupS (runEvents f p uid st0 [.cb "user_top", .msg u, .msg k, .msg l,
         .cb (if b then "include_links_yes" else "include_links_no")]).store uid =
       none) ∧
    ((runEvents f p uid st0 [.cb "subreddit_hot"]).outs = [.edit askSubreddit []] ∧
     lookupS (runEvents f p uid st0 [.cb "subreddit_hot"]).store uid =
       some ⟨.subreddit_hot, []⟩ ∧
     lookupS (runEvents f p uid st0 [.cb "subreddit_hot", .msg u]).store uid =
       some ⟨.subreddit_hot, [("subreddit", .str (pyStrip u))]⟩ ∧
     lookupS (runEvents f p uid st0
         [.cb "subreddit_hot", .msg u, .msg k]).store uid =
       some ⟨.subreddit_hot, [("subreddit", .str (pyStrip u)),
         ("keywords", .str (pyStrip k))]⟩ ∧
     (runEvents f p uid st0 [.cb "subreddit_hot", .msg u, .msg k, .msg l]).outs =
       [.edit askSubreddit [], .reply askKeywords ["no_keywords"],
        .reply askLimit limitButtons, .reply askLinks linkButtons] ∧
     lookupS (runEvents f p uid st0
         [.cb "subreddit_hot", .msg u, .msg k, .msg l]).store uid =
       some ⟨.subreddit_hot, [("subreddit", .str (pyStrip u)),
         ("keywords", .str (pyStrip k)), ("limit", .int q)]⟩ ∧
     (runEvents f p uid st0 [.cb "subreddit_hot", .msg u, .msg k, .msg l,
         .cb (if b then "include_links_yes" else "include_links_no")]).fetchCalls =
       [.top20Hot (.str (pyStrip u)) (.str (pyStrip k)) (.int q) false] ∧
     lookupS (runEvents f p uid st0 [.cb "subreddit_hot", .msg u, .msg k, .msg l,
         .cb (if b then "include_links_yes" else "include_links_no")]).store uid =
       none) ∧
    ((runEvents f p uid st0 [.cb "subreddit_top"]).outs = [.edit askSubreddit []] ∧
     lookupS (runEvents f p uid st0 [.cb "subreddit_top"]).store uid =
       some ⟨.subreddit_top, []⟩ ∧
     lookupS (runEvents f p uid st0 [.cb "subreddit_top", .msg u]).store uid =
       some ⟨.subreddit_top, [("subreddit", .str (pyStrip u))]⟩ ∧
     lookupS (runEvents f p uid st0
         [.cb "subreddit_top", .msg u, .msg k]).store uid =
       some ⟨.subreddit_top, [("subreddit", .str (pyStrip u)),
         ("keywords", .str (pyStrip k))]⟩ ∧
     (runEvents f p uid st0 [.cb "subreddit_top", .msg u, .msg k, .msg l]).outs =
       [.edit askSubreddit [], .reply askKeywords ["no_keywords"],
        .reply askLimit limitButtons, .reply askLinks linkButtons] ∧
     lookupS (runEvents f p uid st0
         [.cb "subreddit_top", .msg u, .msg k, .msg l]).store uid =
       some ⟨.subreddit_top, [("subreddit", .str (pyStrip u)),
         ("keywords", .str (pyStrip k)), ("limit", .int q)]⟩ ∧
     (runEvents f p uid st0 [.cb "subreddit_top", .msg u, .msg k, .msg l,
         .cb (if b then "include_links_yes" else "include_links_no")]).fetchCalls =
       [.top20AllTime (.str (pyStrip u)) (.str (pyStrip k)) (.int q) false] ∧
     lookupS (runEvents f p uid st0 [.cb "subreddit_top", .msg u, .msg k, .msg l,
         .cb (if b then "include_links_yes" else "include_links_no")]).store uid =
       none) := by
  refine ⟨?_, ?_, ?_, ?_⟩
  · -- user_details
    have s1 := btnStartUserDetails f p st0 uid
    have s2 : handleMessage f p (setS st0 uid ⟨.user_details, []⟩) uid u =
        ⟨[.reply askDays []],
         setS (setS st0 uid ⟨.user_details, []⟩) uid
           ⟨.user_details, [("username", .str (pyStrip u))]⟩, [], none⟩ :=
      hmUDUsername f p _ uid [] u (lookupS_setS_self _ _ _) rfl
    have s3 : handleMessage f p (setS (setS st0 uid ⟨.user_details, []⟩) uid
          ⟨.user_details, [("username", .str (pyStrip u))]⟩) uid t =
        userDetailsDispatch f p
          (setS (setS (setS st0 uid ⟨.user_details, []⟩) uid
            ⟨.user_details, [("username", .str (pyStrip u))]⟩) uid
            ⟨.user_details, [("username", .str (pyStrip u)), ("days", .int m)]⟩) uid
          (.accountDetails (.str (pyStrip u)) (.int m)) :=
      hmUDDaysDispatch f p _ uid [("username", .str (pyStrip u))] t m
        (lookupS_setS_self _ _ _) rfl rfl hm
    refine ⟨?_, ?_, ?_, ?_, ?_⟩ <;>
      simp [runEvents, stepEvent, s1, s2, s3, lookupS_setS_self,
        userDetailsDispatch_fetchCalls]
  · -- user_top
    have s1 := btnStartUserTop f p st0 uid
    have s2 : handleMessage f p (setS st0 uid ⟨.user_top, []⟩) uid u =
        ⟨[.reply askKeywords ["no_keywords"]],
         setS (setS st0 uid ⟨.user_top, []⟩) uid
           ⟨.user_top, [("username", .str (pyStrip u))]⟩, [], none⟩ :=
      hmUTUsername f p _ uid [] u (lookupS_setS_self _ _ _) rfl
    have s3 : handleMessage f p (setS (setS st0 uid ⟨.user_top, []⟩) uid
          ⟨.user_top, [("username", .str (pyStrip u))]⟩) uid k =
        ⟨[.reply askLimit limitButtons],
         setS (setS (setS st0 uid ⟨.user_top, []⟩) uid
           ⟨.user_top, [("username", .str (pyStrip u))]⟩) uid
           ⟨.user_top, [("username", .str (pyStrip u)),
             ("keywords", .str (pyStrip k))]⟩, [], none⟩ :=
      hmUTKeywords f p _ uid [("username", .str (pyStrip u))] k
        (lookupS_setS_self _ _ _) rfl rfl
    have s4 : handleMessage f p (setS (setS (setS st0 uid ⟨.user_top, []⟩) uid
          ⟨.user_top, [("username", .str (pyStrip u))]⟩) uid
          ⟨.user_top, [("username", .str (pyStrip u)),
            ("keywords", .str (pyStrip k))]⟩) uid l =
        ⟨[.reply askLinks linkButtons],
         setS (setS (setS (setS st0 uid ⟨.user_top, []⟩) uid
           ⟨.user_top, [("username", .str (pyStrip u))]⟩) uid
           ⟨.user_top, [("username", .str (pyStrip u)),
             ("keywords", .str (pyStrip k))]⟩) uid
           ⟨.user_top, [("username", .str (pyStrip u)),
             ("keywords", .str (pyStrip k)), ("limit", .int n)]⟩, [], none⟩ :=
      hmUTLimitOk f p _ uid [("username", .str (pyStrip u)),
        ("keywords", .str (pyStrip k))] l n (lookupS_setS_self _ _ _) rfl rfl rfl hn
    have s5 : buttonCallback f p (setS (setS (setS (setS st0 uid ⟨.user_top, []⟩) uid
          ⟨.user_top, [("username", .str (pyStrip u))]⟩) uid
          ⟨.user_top, [("username", .str (pyStrip u)),
            ("keywords", .str (pyStrip k))]⟩) uid
          ⟨.user_top, [("username", .str (pyStrip u)),
            ("keywords", .str (pyStrip k)), ("limit", .int n)]⟩) uid
          (if b then "include_links_yes" else "include_links_no") =
        dispatchResult f p
          (setS (setS (setS (setS (setS st0 uid ⟨.user_top, []⟩) uid
            ⟨.user_top, [("username", .str (pyStrip u))]⟩) uid
            ⟨.user_top, [("username", .str (pyStrip u)),
              ("keywords", .str (pyStrip k))]⟩) uid
            ⟨.user_top, [("username", .str (pyStrip u)),
              ("keywords", .str (pyStrip k)), ("limit", .int n)]⟩) uid
            ⟨.user_top, [("username", .str (pyStrip u)),
              ("keywords", .str (pyStrip k)), ("limit", .int n),
              ("include_links", .bool b)]⟩) uid
          (.top30Captions (.str (pyStrip u)) (.str (pyStrip k)) (.int n) false) b :=
      btnLinksUserTop f p _ uid [("username", .str (pyStrip u)),
        ("keywords", .str (pyStrip k)), ("limit", .int n)] b
        (lookupS_setS_self _ _ _) rfl
    refine ⟨?_, ?_, ?_, ?_, ?_, ?_, ?_, ?_, ?_, ?_⟩ <;>
      simp [runEvents, stepEvent, s1, s2, s3, s4, s5, lookupS_setS_self,
        dispatchResult_fetchCalls, dispatchResult_lookup]
  · -- subreddit_hot
    have s1 := btnStartSubHot f p st0 uid
    have s2 : handleMessage f p (setS st0 uid ⟨.subreddit_hot, []⟩) uid u =
        ⟨[.reply askKeywords ["no_keywords"]],
         setS (setS st0 uid ⟨.subreddit_hot, []⟩) uid
           ⟨.subreddit_hot, [("subreddit", .str (pyStrip u))]⟩, [], none⟩ :=
      hmSHSub f p _ uid [] u (lookupS_setS_self _ _ _) rfl
    have s3 : handleMessage f p (setS (setS st0 uid ⟨.subreddit_hot, []⟩) uid
          ⟨.subreddit_hot, [("subreddit", .str (pyStrip u))]⟩) uid k =
        ⟨[.reply askLimit limitButtons],
         setS (setS (setS st0 uid ⟨.subreddit_hot, []⟩) uid
           ⟨.subreddit_hot, [("subreddit", .str (pyStrip u))]⟩) uid
           ⟨.subreddit_hot, [("subreddit", .str (pyStrip u)),
             ("keywords", .str (pyStrip k))]⟩, [], none⟩ :=
      hmSHKeywords f p _ uid [("subreddit", .str (pyStrip u))] k
        (lookupS_setS_self _ _ _) rfl rfl
    have s4 : handleMessage f p (setS (setS (setS st0 uid ⟨.subreddit_hot, []⟩) uid
          ⟨.subreddit_hot, [("subreddit", .str (pyStrip u))]⟩) uid
          ⟨.subreddit_hot, [("subreddit", .str (pyStrip u)),
            ("keywords", .str (pyStrip k))]⟩) uid l =
        ⟨[.reply askLinks linkButtons],
         setS (setS (setS (setS st0 uid ⟨.subreddit_hot, []⟩) uid
           ⟨.subreddit_hot, [("subreddit", .str (pyStrip u))]⟩) uid
           ⟨.subreddit_hot, [("subreddit", .str (pyStrip u)),
             ("keywords", .str (pyStrip k))]⟩) uid
           ⟨.subreddit_hot, [("subreddit", .str (pyStrip u)),
             ("keywords", .str (pyStrip k)), ("limit", .int q)]⟩, [], none⟩ :=
      hmSHLimitOk f p _ uid [("subreddit", .str (pyStrip u)),
        ("keywords", .str (pyStrip k))] l q (lookupS_setS_self _ _ _) rfl rfl rfl hq
    have s5 : buttonCallback f p (setS (setS (setS (setS st0 uid
          ⟨.subreddit_hot, []⟩) uid
          ⟨.subreddit_hot, [("subreddit", .str (pyStrip u))]⟩) uid
          ⟨.subreddit_hot, [("subreddit", .str (pyStrip u)),
            ("keywords", .str (pyStrip k))]⟩) uid
          ⟨.subreddit_hot, [("subreddit", .str (pyStrip u)),
            ("keywords", .str (pyStrip k)), ("limit", .int q)]⟩) uid
          (if b then "include_links_yes" else "include_links_no") =
        dispatchResult f p
          (setS (setS (setS (setS (setS st0 uid ⟨.subreddit_hot, []⟩) uid
            ⟨.subreddit_hot, [("subreddit", .str (pyStrip u))]⟩) uid
            ⟨.subreddit_hot, [("subreddit", .str (pyStrip u)),
              ("keywords", .str (pyStrip k))]⟩) uid
            ⟨.subreddit_hot, [("subreddit", .str (pyStrip u)),
              ("keywords", .str (pyStrip k)), ("limit", .int q)]⟩) uid
            ⟨.subreddit_hot, [("subreddit", .str (pyStrip u)),
              ("keywords", .str (pyStrip k)), ("limit", .int q),
              ("include_links", .bool b)]⟩) uid
          (.top20Hot (.str (pyStrip u)) (.str (pyStrip k)) (.int q) false) b :=
      btnLinksSubHot f p _ uid [("subreddit", .str (pyStrip u)),
        ("keywords", .str (pyStrip k)), ("limit", .int q)] b
        (lookupS_setS_self _ _ _) rfl
    refine ⟨?_, ?_, ?_, ?_, ?_, ?_, ?_, ?_⟩ <;>
      simp [runEvents, stepEvent, s1, s2, s3, s4, s5, lookupS_setS_self,
        dispatchResult_fetchCalls, dispatchResult_lookup]
  · -- subreddit_top
    have s1 := btnStartSubTop f p st0 uid
    have s2 : handleMessage f p (setS st0 uid ⟨.subreddit_top, []⟩) uid u =
        ⟨[.reply askKeywords ["no_keywords"]],
         setS (setS st0 uid ⟨.subreddit_top, []⟩) uid
           ⟨.subreddit_top, [("subreddit", .str (pyStrip u))]⟩, [], none⟩ :=
      hmSTSub f p _ uid [] u (lookupS_setS_self _ _ _) rfl
    have s3 : handleMessage f p (setS (setS st0 uid ⟨.subreddit_top, []⟩) uid
          ⟨.subreddit_top, [("subreddit", .str (pyStrip u))]⟩) uid k =
        ⟨[.reply askLimit limitButtons],
         setS (setS (setS st0 uid ⟨.subreddit_top, []⟩) uid
           ⟨.subreddit_top, [("subreddit", .str (pyStrip u))]⟩) uid
           ⟨.subreddit_top, [("subreddit", .str (pyStrip u)),
             ("keywords", .str (pyStrip k))]⟩, [], none⟩ :=
      hmSTKeywords f p _ uid [("subreddit", .str (pyStrip u))] k
        (lookupS_setS_self _ _ _) rfl rfl
    have s4 : handleMessage f p (setS (setS (setS st0 uid ⟨.subreddit_top, []⟩) uid
          ⟨.subreddit_top, [("subreddit", .str (pyStrip u))]⟩) uid
          ⟨.subreddit_top, [("subreddit", .str (pyStrip u)),
            ("keywords", .str (pyStrip k))]⟩) uid l =
        ⟨[.reply askLinks linkButtons],
         setS (setS (setS (setS st0 uid ⟨.subreddit_top, []⟩) uid
           ⟨.subreddit_top, [("subreddit", .str (pyStrip u))]⟩) uid
           ⟨.subreddit_top, [("subreddit", .str (pyStrip u)),
             ("keywords", .str (pyStrip k))]⟩) uid
           ⟨.subreddit_top, [("subreddit", .str (pyStrip u)),
             ("keywords", .str (pyStrip k)), ("limit", .int q)]⟩, [], none⟩ :=
      hmSTLimitOk f p _ uid [("subreddit", .str (pyStrip u)),
        ("keywords", .str (pyStrip k))] l q (lookupS_setS_self _ _ _) rfl rfl rfl hq
    have s5 : buttonCallback f p (setS (setS (setS (setS st0 uid
          ⟨.subreddit_top, []⟩) uid
          ⟨.subreddit_top, [("subreddit", .str (pyStrip u))]⟩) uid
          ⟨.subreddit_top, [("subreddit", .str (pyStrip u)),
            ("keywords", .str (pyStrip k))]⟩) uid
          ⟨.subreddit_top, [("subreddit", .str (pyStrip u)),
            ("keywords", .str (pyStrip k)), ("limit", .int q)]⟩) uid
          (if b then "include_links_yes" else "include_links_no") =
        dispatchResult f p
          (setS (setS (setS (setS (setS st0 uid ⟨.subreddit_top, []⟩) uid
            ⟨.subreddit_top, [("subreddit", .str (pyStrip u))]⟩) uid
            ⟨.subreddit_top, [("subreddit", .str (pyStrip u)),
              ("keywords", .str (pyStrip k))]⟩) uid
            ⟨.subreddit_top, [("subreddit", .str (pyStrip u)),
              ("keywords", .str (pyStrip k)), ("limit", .int q)]⟩) uid
            ⟨.subreddit_top, [("subreddit", .str (pyStrip u)),
              ("keywords", .str (pyStrip k)), ("limit", .int q),
              ("include_links", .bool b)]⟩) uid
          (.top20AllTime (.str (pyStrip u)) (.str (pyStrip k)) (.int q) false) b :=
      btnLinksSubTop f p _ uid [("subreddit", .str (pyStrip u)),
        ("keywords", .str (pyStrip k)), ("limit", .int q)] b
        (lookupS_setS_self _ _ _) rfl
    refine ⟨?_, ?_, ?_, ?_, ?_, ?_, ?_, ?_⟩ <;>
      simp [runEvents, stepEvent, s1, s2, s3, s4, s5, lookupS_setS_self,
        dispatchResult_fetchCalls, dispatchResult_lookup]

theorem c1_witness :
    ((pyStrip "2" = "" ∧ (2 : Int) = 1) ∨ pyInt (pyStrip "2") = some 2) ∧
    ((pyStrip "30" = "" ∧ (30 : Int) = 30) ∨ pyInt (pyStrip "30") = some 30) ∧
    ((pyStrip "30" = "" ∧ (30 : Int) = 20) ∨ pyInt (pyStrip "30") = some 30) ∧
    (runEvents exFetch exParse 7 []
        [.cb "user_top", .msg "alice", .msg "cats", .msg "30",
         .cb "include_links_yes"]).fetchCalls =
      [.top30Captions (.str "alice") (.str "cats") (.int 30) false] :=
  by
  refine ⟨Or.inr (by decide), Or.inr (by decide), Or.inr (by decide), ?_⟩
  have h := (c1_happy_path_fills_fields_in_order_dispatches_once exFetch exParse 7 []
    "alice" "cats" "30" "2" true 2 30 30
    (Or.inr (by decide)) (Or.inr (by decide)) (Or.inr (by decide))).2.1
  exact h.2.2.2.2.2.2.2.2.1

end RedditBot
